import Mathlib

/-!
Verification of the recording hook `useApp` (src/components/App/useApp.js)

Shallow embedding of the transcript reconciler loop of `startTranscription`,
the audio queue feeding the outbound stream, the file gate of
`handleFileSelect`, the polling loop of `loadTranscription`, the
teardown of `stopRecording` and the start sequence of `startRecording`.

Conventions of the embedding:
* an optional JavaScript property is an `Option`; `undefined` is `none`;
* `Date.now()` is an integer number of milliseconds, supplied with each event;
* a React state setter writes the corresponding field of the state record;
* calls to collaborators (uploads, fetches, node releases) are appended to an
  effect log in call order, and their outcomes are inputs of the model.
-/

set_option autoImplicit false

namespace UseApp

/-! ## JavaScript helpers -/

/-- Truthiness of an optional string: `undefined` and `''` are falsy. -/
def truthyStr : Option String → Bool
  | some s => s != ""
  | none => false

/-- Truthiness of an optional boolean: `undefined` and `false` are falsy. -/
def truthyBool : Option Bool → Bool
  | some b => b
  | none => false

/-- Template-literal rendering of an optional string known to be truthy. -/
def strOf : Option String → String
  | some s => s
  | none => "undefined"

/-- The method `Array.prototype.join` on an array of strings. -/
def jsJoin (sep : String) (xs : List String) : String :=
  String.intercalate sep xs

/-! ## Transcript events (shape read by the loop of `startTranscription`) -/

structure Item where
  Speaker : Option String
deriving DecidableEq

structure Alternative where
  Transcript : Option String
  Items : Option (List Item)
deriving DecidableEq

structure Result where
  Alternatives : Option (List Alternative)
  IsPartial : Option Bool
  Speaker : Option String
deriving DecidableEq

structure TranscriptBody where
  Results : Option (List Result)
deriving DecidableEq

structure TranscriptEventBody where
  Transcript : Option TranscriptBody
deriving DecidableEq

structure Event where
  TranscriptEvent : Option TranscriptEventBody
deriving DecidableEq

/-- The expression `event.TranscriptEvent?.Transcript?.Results?.[0]`. -/
def Event.firstResult (event : Event) : Option Result :=
  match event.TranscriptEvent with
  | none => none
  | some te =>
    match te.Transcript with
    | none => none
    | some tr =>
      match tr.Results with
      | none => none
      | some rs => rs.head?

/-- The expression `result.Alternatives?.[0]`. -/
def Result.firstAlternative (result : Result) : Option Alternative :=
  match result.Alternatives with
  | none => none
  | some alts => alts.head?

/-- The test `alternative.Items?.length > 0` (`undefined > 0` is false). -/
def Alternative.hasItems (alternative : Alternative) : Bool :=
  match alternative.Items with
  | none => false
  | some items => decide (items.length > 0)

/-- The speaker-label block of `startTranscription` (lines 353-364). -/
def speakerLabel (numSpeakers : Nat) (result : Result) (alternative : Alternative) : String :=
  if numSpeakers > 1 then
    if alternative.hasItems then
      match (alternative.Items.getD []).find? (fun item => truthyStr item.Speaker) with
      | some speakerItem => "[דובר " ++ strOf speakerItem.Speaker ++ "]: "
      | none => ""
    else if truthyStr result.Speaker then
      "[דובר " ++ strOf result.Speaker ++ "]: "
    else ""
  else ""

/-- The expression `alternative.Transcript || ''`. -/
def newTextOf (alternative : Alternative) : String :=
  if truthyStr alternative.Transcript then strOf alternative.Transcript else ""

/-- Mutable state of the reconciler loop, with the React `transcription` state
and the log of every argument passed to `setTranscription`. -/
structure Reconciler where
  currentTranscript : String
  lastPartialTimestamp : Int
  completeTranscripts : List String
  transcription : String
  emitted : List String
deriving DecidableEq

/-- State at loop entry (lines 341-343): `now0` is the value of `Date.now()`,
`shown` the transcription currently displayed. -/
def Reconciler.fresh (now0 : Int) (shown : String) : Reconciler :=
  { currentTranscript := ""
    lastPartialTimestamp := now0
    completeTranscripts := []
    transcription := shown
    emitted := [] }

/-- One iteration of the `for await` loop (lines 346-393); `now` is the value
`Date.now()` returns in this iteration. -/
def processEvent (numSpeakers : Nat) (st : Reconciler) (event : Event) (now : Int) :
    Reconciler :=
  match event.firstResult with
  | none => st
  | some result =>
    match result.firstAlternative with
    | none => st
    | some alternative =>
      let newText := newTextOf alternative
      let label := speakerLabel numSpeakers result alternative
      let shouldUpdatePartial := decide (now - st.lastPartialTimestamp > 100)
      if truthyBool result.IsPartial then
        if shouldUpdatePartial then
          let displayText :=
            jsJoin "\n" ((st.completeTranscripts ++ [label ++ newText]).filter (fun s => s != ""))
          { st with
            currentTranscript := newText
            lastPartialTimestamp := now
            transcription := displayText
            emitted := st.emitted ++ [displayText] }
        else st
      else
        let complete := st.completeTranscripts ++ [label ++ newText]
        let displayText := jsJoin "\n" complete
        { st with
          completeTranscripts := complete
          currentTranscript := ""
          transcription := displayText
          emitted := st.emitted ++ [displayText] }

/-- The whole loop over the delivered events, each with its `Date.now()`. -/
def reconcile (numSpeakers : Nat) (now0 : Int) (shown : String)
    (events : List (Event × Int)) : Reconciler :=
  events.foldl (fun st en => processEvent numSpeakers st en.1 en.2)
    (Reconciler.fresh now0 shown)

/-! ### Reading an event the way the loop does -/

/-- The result and top alternative the loop works on, when both exist. -/
def Event.top (event : Event) : Option (Result × Alternative) :=
  match event.firstResult with
  | none => none
  | some result =>
    match result.firstAlternative with
    | none => none
    | some alternative => some (result, alternative)

/-- A partial event: a transcript result whose `IsPartial` is truthy. -/
def Event.isPartial (event : Event) : Bool :=
  match event.top with
  | some (result, _) => truthyBool result.IsPartial
  | none => false

/-- A final event: a transcript result whose `IsPartial` is falsy. -/
def Event.isFinal (event : Event) : Bool :=
  match event.top with
  | some (result, _) => !truthyBool result.IsPartial
  | none => false

/-- Text of the top alternative of an event. -/
def Event.text (event : Event) : String :=
  match event.top with
  | some (_, alternative) => newTextOf alternative
  | none => ""

/-- Speaker label of an event. -/
def Event.label (numSpeakers : Nat) (event : Event) : String :=
  match event.top with
  | some (result, alternative) => speakerLabel numSpeakers result alternative
  | none => ""

/-- The speaker id the label block interpolates, if it interpolates one:
the tag of the item found by `find` when the item list is non-empty,
otherwise the truthy result-level `Speaker`. -/
def speakerId (result : Result) (alternative : Alternative) : Option String :=
  if alternative.hasItems then
    match (alternative.Items.getD []).find? (fun item => truthyStr item.Speaker) with
    | some speakerItem => some (strOf speakerItem.Speaker)
    | none => none
  else if truthyStr result.Speaker then some (strOf result.Speaker)
  else none

/-- Segments `label + text` of the final events of a delivery, in arrival order. -/
def finalSegments (numSpeakers : Nat) (events : List Event) : List String :=
  (events.filter Event.isFinal).map (fun e => e.label numSpeakers ++ e.text)

/-- A transcript event carrying one result with one alternative. -/
def mkEvent (isPartial : Bool) (text : String) (items : Option (List Item))
    (speaker : Option String) : Event :=
  let alternative : Alternative := { Transcript := some text, Items := items }
  let result : Result :=
    { Alternatives := some [alternative], IsPartial := some isPartial, Speaker := speaker }
  { TranscriptEvent := some { Transcript := some { Results := some [result] } } }

/-! ## The audio queue of `startTranscription` (lines 262-310) -/

/-- A byte buffer (`Buffer`), one natural number below 256 per byte. -/
abbrev Buffer := List Nat

/-- The call `buffer.writeInt16LE(v, offset)`: the two bytes of the
two's-complement encoding, low byte first; the library raises a `RangeError`
outside the 16-bit range, which is `none` here. -/
def writeInt16LE (v : Int) : Option (List Nat) :=
  if -32768 ≤ v ∧ v ≤ 32767 then
    let u := (v % 65536).toNat
    some [u % 256, u / 256]
  else none

/-- The buffer-filling loop of the worklet message handler (lines 278-281). -/
def toBuffer : List Int → Option Buffer
  | [] => some []
  | v :: rest =>
    match writeInt16LE v with
    | none => none
    | some b =>
      match toBuffer rest with
      | none => none
      | some bs => some (b ++ bs)

/-- Payload `event.data` of a worklet message, as far as the queue reads it. -/
structure WorkletMessage where
  audioData : Option (List Int)
  activeFrames : Nat
deriving DecidableEq

/-- Local state of one `startTranscription` call around the queue:
`enqueued` logs the chunks handed to `controller.enqueue`, oldest first. -/
structure StreamState where
  isStreaming : Bool
  audioQueue : List Buffer
  accumulatedBytes : Nat
  enqueued : List Buffer
  closed : Bool
deriving DecidableEq

/-- Local state at the start of `startTranscription` (lines 262-264). -/
def StreamState.init : StreamState :=
  { isStreaming := true, audioQueue := [], accumulatedBytes := 0, enqueued := [], closed := false }

/-- The handler `port.onmessage` (lines 273-289), without the level meter,
which writes a separate React state from a floating-point product. An
exception of `writeInt16LE` leaves the handler before the push. -/
def onmessage (st : StreamState) (m : WorkletMessage) : StreamState :=
  match m.audioData with
  | none => st
  | some audioData =>
    match toBuffer audioData with
    | none => st
    | some buffer =>
      if m.activeFrames > 0 then { st with audioQueue := st.audioQueue ++ [buffer] }
      else st

/-- One run of the `setInterval` callback (lines 293-304). -/
def tick (st : StreamState) : StreamState :=
  if !st.isStreaming then { st with closed := true }
  else
    match st.audioQueue with
    | chunk :: rest =>
      { st with
        audioQueue := rest
        enqueued := st.enqueued ++ [chunk]
        accumulatedBytes := st.accumulatedBytes + chunk.length }
    | [] => st

/-- The `cancel` callback of the readable stream (lines 306-309). -/
def cancel (st : StreamState) : StreamState :=
  { st with isStreaming := false }

/-- What happens around the queue while streaming: a worklet message or a tick. -/
inductive QueueOp where
  | message (m : WorkletMessage)
  | tick
deriving DecidableEq

/-- Apply one operation. -/
def QueueOp.apply (st : StreamState) : QueueOp → StreamState
  | .message m => onmessage st m
  | .tick => UseApp.tick st

/-- Apply operations in order. -/
def runQueue (st : StreamState) (ops : List QueueOp) : StreamState :=
  ops.foldl QueueOp.apply st

/-- The frame a message pushes onto the queue, if it pushes one. -/
def WorkletMessage.frame (m : WorkletMessage) : Option Buffer :=
  match m.audioData with
  | none => none
  | some audioData =>
    match toBuffer audioData with
    | none => none
    | some buffer => if m.activeFrames > 0 then some buffer else none

/-- The frames pushed by a sequence of operations, in push order. -/
def pushedFrames : List QueueOp → List Buffer
  | [] => []
  | .message m :: ops =>
    match m.frame with
    | some b => b :: pushedFrames ops
    | none => pushedFrames ops
  | .tick :: ops => pushedFrames ops

/-! ## Hook state shared by the file path and `stopRecording` -/

/-- A `Blob`: its bytes and its declared type. -/
structure Blob where
  bytes : List Nat
  type : String
deriving DecidableEq

/-- The property `blob.size`. -/
def Blob.size (b : Blob) : Nat := b.bytes.length

/-- The constructor `new Blob(parts, { type })`: the parts in order. -/
def Blob.ofParts (parts : List Blob) (type : String) : Blob :=
  { bytes := (parts.map Blob.bytes).flatten, type := type }

/-- A selected `File`, as far as `handleFileSelect` reads it. -/
structure File where
  name : String
  type : String
  size : Nat
deriving DecidableEq

inductive RecorderState where
  | inactive
  | recording
  | paused
deriving DecidableEq

inductive ContextState where
  | suspended
  | running
  | closed
deriving DecidableEq

/-- A media stream: the identifiers of its tracks. -/
structure MediaStream where
  tracks : List Nat
deriving DecidableEq

/-- Calls that leave the hook, in the order they are made. -/
inductive Effect where
  | createSessionId
  | uploadMedia (file : File) (sessionId : String)
  | getFirstTranscription (sessionId : String)
  | recorderStop
  | uploadRecording (blob : Blob) (sessionId : Option String)
  | uploadTranscription (text : String) (sessionId : Option String)
  | cancelAnimationFrame (id : Nat)
  | trackStop (track : Nat)
  | workletDisconnect
  | gainDisconnect
  | analyserDisconnect
  | contextClose
  | getUserMedia
  | recorderStart
  | transcribeSend
deriving DecidableEq

/-- React states and refs of `useApp` (lines 10-38) read or written by the
modelled functions, and the effect log. A ref holding `null` is `none`. -/
structure HookState where
  isRecording : Bool
  transcription : String
  error : String
  isProcessing : Bool
  audioLevel : Nat
  uploadingFile : Bool
  selectedFileName : String
  isLoadingTranscription : Bool
  sessionId : Option String
  recordedChunks : List Blob
  mediaRecorder : Option RecorderState
  audioContext : Option ContextState
  workletNode : Option Nat
  stream : Option MediaStream
  gainNode : Option Nat
  analyser : Option Nat
  animationFrame : Option Nat
  fileInputValue : Option String
  effects : List Effect
deriving DecidableEq

/-- State of a freshly mounted hook (the `useState` and `useRef` initial values). -/
def HookState.initial : HookState :=
  { isRecording := false, transcription := "", error := "", isProcessing := false
    audioLevel := 0, uploadingFile := false, selectedFileName := ""
    isLoadingTranscription := false, sessionId := none, recordedChunks := []
    mediaRecorder := none, audioContext := none, workletNode := none, stream := none
    gainNode := none, analyser := none, animationFrame := none, fileInputValue := none
    effects := [] }

/-- Append a call to the effect log. -/
def HookState.log (st : HookState) (e : Effect) : HookState :=
  { st with effects := st.effects ++ [e] }

/-! ## `loadTranscription` (lines 89-134) -/

/-- Outcome of one `S3Service.getFirstTranscription` call: the resolved value
(`none` for `undefined` or `null`) or a rejection. -/
inductive FetchOutcome where
  | returned (text : Option String)
  | threw
deriving DecidableEq

/-- The constant `maxAttempts` (line 95). -/
def maxAttempts : Nat := 120

/-- The closure `pollForTranscription` (lines 98-111): the outcome of the
fetch is an input; returns the `found` flag with the new state. -/
def pollForTranscription (outcome : FetchOutcome) (sessionId : String) (st : HookState) :
    Bool × HookState :=
  let st := st.log (.getFirstTranscription sessionId)
  match outcome with
  | .returned transcriptionText =>
    if truthyStr transcriptionText then
      (true, { st with transcription := strOf transcriptionText })
    else (false, st)
  | .threw => (false, st)

/-- The closure `poll` (lines 113-125) with its counter `attempts`; `fetch k`
is the outcome of the fetch made when the counter is `k`. The result is the
state reached and the message of the `Error` thrown, if one is. The 2000 ms
wait between attempts is not modelled. -/
def poll (fetch : Nat → FetchOutcome) (sessionId : String) (attempts : Nat) (st : HookState) :
    HookState × Option String :=
  if h : attempts >= maxAttempts then
    (st, some "Timeout waiting for transcription")
  else
    let r := pollForTranscription (fetch attempts) sessionId st
    if !r.1 then poll fetch sessionId (attempts + 1) r.2
    else (r.2, none)
termination_by maxAttempts - attempts
decreasing_by omega

/-- The function `loadTranscription`. -/
def loadTranscription (fetch : Nat → FetchOutcome) (sessionId : String) (st : HookState) :
    HookState :=
  let st := { st with isLoadingTranscription := true, error := "" }
  let r := poll fetch sessionId 0 st
  let st :=
    match r.2 with
    | some message => { r.1 with error := "Failed to load transcription: " ++ message }
    | none => r.1
  { st with isLoadingTranscription := false }

/-- The text a fetch outcome makes `pollForTranscription` accept: a resolved,
non-empty string. -/
def FetchOutcome.found : FetchOutcome → Option String
  | .returned (some t) => if t != "" then some t else none
  | .returned none => none
  | .threw => none

/-- The log entries of `n` fetch attempts for a session. -/
def fetchAttempts (sessionId : String) (n : Nat) : List Effect :=
  List.replicate n (Effect.getFirstTranscription sessionId)

/-! ## `handleFileSelect` (lines 136-210) -/

/-- The array `supportedAudioTypes` (lines 141-156). -/
def supportedAudioTypes : List String :=
  [ "audio/mpeg", "audio/x-mpeg", "video/mpeg", "audio/mpeg3", "audio/x-mpeg3",
    "audio/mp3", "audio/x-mp3", "audio/mp4", "audio/wav", "audio/x-wav",
    "audio/webm", "audio/ogg", "audio/aac", "audio/x-m4a" ]

/-- The characters after the last `'.'` (all of them when there is none):
`split('.').pop()` on a character list. -/
def lastSegment (cs : List Char) : List Char :=
  go cs []
where
  go : List Char → List Char → List Char
    | [], acc => acc.reverse
    | c :: rest, acc => if c = '.' then go rest [] else go rest (c :: acc)

/-- The expression `file.name.toLowerCase().split('.').pop()`. Lower-casing is
letter by letter on the ASCII letters, which is all the comparison with
`'mpeg'` can observe: no other character lower-cases to `m`, `p`, `e` or `g`. -/
def fileExtension (name : String) : String :=
  String.mk (lastSegment (name.data.map Char.toLower))

/-- The value of `isSupported` at line 169. -/
def isSupported (file : File) : Bool :=
  let isSupported := supportedAudioTypes.contains file.type
  if !isSupported && file.name != "" then
    if fileExtension file.name == "mpeg" then true else isSupported
  else isSupported

/-- The message set for an unsupported file (line 170). -/
def unsupportedFileMessage : String :=
  "Please select a supported audio file (MPEG, MP3, WAV, M4A, WebM, OGG, AAC)"

/-- Inputs of one `handleFileSelect` call that come from collaborators. -/
structure FileEnv where
  newSessionId : String
  uploadMedia : Except String Unit
  fetch : Nat → FetchOutcome

/-- The function `handleFileSelect`; `file` is `event.target.files[0]`. -/
def handleFileSelect (env : FileEnv) (st : HookState) (file : Option File) : HookState :=
  match file with
  | none => st
  | some file =>
    if !isSupported file then { st with error := unsupportedFileMessage }
    else
      let st := { st with selectedFileName := file.name, uploadingFile := true, error := "" }
      let st := st.log .createSessionId
      let st := { st with sessionId := some env.newSessionId }
      let st := st.log (.uploadMedia file env.newSessionId)
      let st :=
        match env.uploadMedia with
        | .error message => { st with error := "Failed to process file: " ++ message }
        | .ok _ =>
          let st :=
            match st.fileInputValue with
            | some _ => { st with fileInputValue := some "" }
            | none => st
          let st := { st with selectedFileName := "Uploaded: " ++ file.name }
          loadTranscription env.fetch env.newSessionId st
      { st with uploadingFile := false }

/-! ## `stopRecording` (lines 455-519) and the chunk buffer (lines 434-439) -/

/-- The handler `ondataavailable` installed by `startRecording`. -/
def ondataavailable (st : HookState) (data : Blob) : HookState :=
  if data.size > 0 then { st with recordedChunks := st.recordedChunks ++ [data] }
  else st

/-- Inputs of one `stopRecording` call that come from collaborators:
the data the recorder delivers between `stop()` and its `stop` event, and the
outcome of each upload (an `error` is the thrown error with its message). -/
structure StopEnv where
  flushed : List Blob
  uploadRecording : Except String Unit
  uploadTranscription : Except String Unit

/-- Stopping the recorder and awaiting its `stop` event (lines 461-466):
the data delivered meanwhile goes through `ondataavailable`. -/
def stopRecorder (env : StopEnv) (st : HookState) : HookState :=
  match st.mediaRecorder with
  | some state =>
    if state != .inactive then
      let st := st.log .recorderStop
      let st := env.flushed.foldl ondataavailable st
      { st with mediaRecorder := some .inactive }
    else st
  | none => st

/-- The persistence step (lines 469-479): the state reached and the message
of the error thrown, if one is. -/
def persist (env : StopEnv) (st : HookState) : HookState × Option String :=
  if st.recordedChunks.length > 0 then
    let audioBlob := Blob.ofParts st.recordedChunks "audio/wav"
    let st := st.log (.uploadRecording audioBlob st.sessionId)
    match env.uploadRecording with
    | .error message => (st, some message)
    | .ok _ =>
      let st := st.log (.uploadTranscription st.transcription st.sessionId)
      match env.uploadTranscription with
      | .error message => (st, some message)
      | .ok _ => (st, none)
  else (st, none)

/-- The `try` block of `stopRecording` (lines 461-479). -/
def stopRecordingTry (env : StopEnv) (st : HookState) : HookState × Option String :=
  persist env (stopRecorder env st)

/-- The `finally` block of `stopRecording` (lines 484-517). -/
def stopRecordingFinally (st : HookState) : HookState :=
  let st :=
    match st.animationFrame with
    | some id => if id != 0 then st.log (.cancelAnimationFrame id) else st
    | none => st
  let st :=
    match st.stream with
    | some stream =>
      { st with effects := st.effects ++ stream.tracks.map Effect.trackStop, stream := none }
    | none => st
  let st :=
    match st.workletNode with
    | some _ => { st.log .workletDisconnect with workletNode := none }
    | none => st
  let st :=
    match st.gainNode with
    | some _ => { st.log .gainDisconnect with gainNode := none }
    | none => st
  let st :=
    match st.analyser with
    | some _ => { st.log .analyserDisconnect with analyser := none }
    | none => st
  let st :=
    if st.audioContext = some .running then
      { st.log .contextClose with audioContext := none }
    else st
  { st with mediaRecorder := none, recordedChunks := [], audioLevel := 0, isProcessing := false }

/-- The function `stopRecording`. -/
def stopRecording (env : StopEnv) (st : HookState) : HookState :=
  let st := { st with isRecording := false, isProcessing := true }
  let r := stopRecordingTry env st
  let st :=
    match r.2 with
    | some message => { r.1 with error := "Failed to save recording: " ++ message }
    | none => r.1
  stopRecordingFinally st

/-- The chunk buffer `stopRecording` reads at line 469: the buffered chunks
followed, when the recorder was still active, by the non-empty data it
delivers on `stop()`. -/
def chunksAtUpload (env : StopEnv) (st : HookState) : List Blob :=
  match st.mediaRecorder with
  | some state =>
    if state != .inactive then st.recordedChunks ++ env.flushed.filter (fun d => d.size > 0)
    else st.recordedChunks
  | none => st.recordedChunks

/-- Upload calls among logged effects. -/
def Effect.isUpload : Effect → Bool
  | .uploadRecording _ _ => true
  | .uploadTranscription _ _ => true
  | _ => false

/-- The uploads of an effect log, in call order. -/
def uploadsOf (effects : List Effect) : List Effect :=
  effects.filter Effect.isUpload

/-- The release calls of the `finally` block of `stopRecording`, in order. -/
def teardownEffects (st : HookState) : List Effect :=
  (match st.animationFrame with
    | some id => if id != 0 then [Effect.cancelAnimationFrame id] else []
    | none => [])
  ++ (match st.stream with
    | some stream => stream.tracks.map Effect.trackStop
    | none => [])
  ++ (match st.workletNode with
    | some _ => [Effect.workletDisconnect]
    | none => [])
  ++ (match st.gainNode with
    | some _ => [Effect.gainDisconnect]
    | none => [])
  ++ (match st.analyser with
    | some _ => [Effect.analyserDisconnect]
    | none => [])
  ++ (if st.audioContext = some .running then [Effect.contextClose] else [])

/-- The call `stop()` on the recorder is made at line 462. -/
def recorderActive (st : HookState) : Bool :=
  match st.mediaRecorder with
  | some state => state != .inactive
  | none => false

/-- The uploads the persistence step issues for a chunk buffer, in order. -/
def uploadsIssued (env : StopEnv) (chunks : List Blob) (sessionId : Option String)
    (transcription : String) : List Effect :=
  if chunks.length > 0 then
    Effect.uploadRecording (Blob.ofParts chunks "audio/wav") sessionId ::
      (match env.uploadRecording with
        | .error _ => []
        | .ok _ => [Effect.uploadTranscription transcription sessionId])
  else []

/-- The message of the error the persistence step throws for a chunk buffer. -/
def thrownMessage (env : StopEnv) (chunks : List Blob) : Option String :=
  if chunks.length > 0 then
    match env.uploadRecording with
    | .error message => some message
    | .ok _ =>
      match env.uploadTranscription with
      | .error message => some message
      | .ok _ => none
  else none

/-! ## `initializeAudioContext` (lines 231-259), the session part of
`startTranscription` (lines 261-401) and `startRecording` (lines 407-451) -/

/-- How the body of `initializeAudioContext` ends when it has to build a
context: normally, or with an error thrown by `new AudioContext` (before the
gain and analyser nodes exist) or by `audioWorklet.addModule` (after). -/
inductive InitOutcome where
  | ok
  | contextThrows (message : String)
  | addModuleThrows (message : String)
deriving DecidableEq

/-- Inputs of one `startRecording` call that come from the browser and from
the transcription service. `setup` is the outcome of building the media
stream source and the worklet node (lines 268-269), `send` that of
`transcribeClient.send`, `events` the transcript events delivered with their
`Date.now()`, and `streamError` the message of the error the inbound stream
throws after them, if it throws. -/
structure StartEnv where
  init : InitOutcome
  contextState : ContextState
  gainNode : Nat
  analyser : Nat
  workletNode : Nat
  newSessionId : String
  getUserMedia : Except String MediaStream
  numSpeakers : Nat
  setup : Except String Unit
  send : Except String Unit
  now0 : Int
  events : List (Event × Int)
  streamError : Option String

/-- The function `initializeAudioContext`: the flag it returns and the state. -/
def initializeAudioContext (env : StartEnv) (st : HookState) : Bool × HookState :=
  match st.audioContext with
  | none =>
    match env.init with
    | .contextThrows message =>
      (false, { st with error := "Failed to initialize audio: " ++ message })
    | .addModuleThrows message =>
      (false, { st with
        gainNode := some env.gainNode
        analyser := some env.analyser
        error := "Failed to initialize audio: " ++ message })
    | .ok =>
      (true, { st with
        gainNode := some env.gainNode
        analyser := some env.analyser
        audioContext := some env.contextState })
  | some _ => (true, st)

/-- The function `startTranscription`, as far as the hook state records it:
the state reached and the message of the error rethrown by its `catch`
block, if one is. The audio queue is local to the call and modelled apart;
the event loop is `reconcile`, whose last emitted string is the displayed
transcription. Reading `audioContextRef.current` while it is `null` raises
a `TypeError`. -/
def startTranscription (env : StartEnv) (st : HookState) : HookState × Option String :=
  match st.audioContext with
  | none => (st, some "Cannot read properties of null (reading 'createMediaStreamSource')")
  | some _ =>
    match env.setup with
    | .error message => (st, some message)
    | .ok _ =>
      let st := { st with workletNode := some env.workletNode }
      let st := st.log .transcribeSend
      match env.send with
      | .error message => (st, some message)
      | .ok _ =>
        let st := { st with
          transcription :=
            (reconcile env.numSpeakers env.now0 st.transcription env.events).transcription }
        (st, env.streamError)

/-- The function `startRecording`. Its `catch` block only writes to the
console (the `setError` call of line 447 is commented out), so an error
thrown in the `try` block leaves the state as it was when thrown; the
`finally` block then clears `isProcessing`. -/
def startRecording (env : StartEnv) (st : HookState) : HookState :=
  let st := { st with error := "", isProcessing := true }
  let r := initializeAudioContext env st
  let st := r.2
  let st :=
    if !r.1 then st
    else
      let st := st.log .createSessionId
      let st := { st with sessionId := some env.newSessionId, recordedChunks := [] }
      let st := st.log .getUserMedia
      match env.getUserMedia with
      | .error _ => st
      | .ok stream =>
        let st := { st.log .recorderStart with mediaRecorder := some .recording }
        let st := { st with stream := some stream, isRecording := true }
        (startTranscription env st).1
  { st with isProcessing := false }

/-- The number of `transcribeClient.send` calls in an effect log. -/
def sendCount (effects : List Effect) : Nat :=
  effects.count Effect.transcribeSend

/-- An environment in which every start step succeeds and the inbound stream
closes without events. -/
def StartEnv.quiet : StartEnv :=
  { init := .ok, contextState := .running, gainNode := 1, analyser := 2, workletNode := 3
    newSessionId := "s1", getUserMedia := .ok ⟨[1]⟩, numSpeakers := 1
    setup := .ok (), send := .ok (), now0 := 0, events := [], streamError := none }

/-- The state in which `startRecording` calls `startTranscription` (line 444)
once the audio context is ready and the microphone has delivered `stream`. -/
def recordingState (env : StartEnv) (st : HookState) (stream : MediaStream) : HookState :=
  let st := (initializeAudioContext env { st with error := "", isProcessing := true }).2
  let st := st.log .createSessionId
  let st := { st with sessionId := some env.newSessionId, recordedChunks := [] }
  let st := st.log .getUserMedia
  let st := { st.log .recorderStart with mediaRecorder := some .recording }
  { st with stream := some stream, isRecording := true }

/-- The number of `audioContext.close()` calls in an effect log. -/
def closeCount (effects : List Effect) : Nat :=
  effects.count Effect.contextClose

/-! # Theorems -/

/-! ## Joining strings -/

theorem intercalate_go_snoc (sep acc x : String) (xs : List String) :
    String.intercalate.go acc sep (xs ++ [x]) = String.intercalate.go acc sep xs ++ sep ++ x := by
  induction xs generalizing acc with
  | nil => simp [String.intercalate.go]
  | cons y ys ih => simp [String.intercalate.go, ih]

theorem jsJoin_snoc (sep x : String) (xs : List String) (hne : xs ≠ []) :
    jsJoin sep (xs ++ [x]) = jsJoin sep xs ++ sep ++ x := by
  cases xs with
  | nil => exact absurd rfl hne
  | cons y ys => simp [jsJoin, String.intercalate, intercalate_go_snoc]

/-! ## The reconciler loop -/

theorem reconcile_snoc (numSpeakers : Nat) (now0 : Int) (shown : String)
    (pre : List (Event × Int)) (e : Event) (now : Int) :
    reconcile numSpeakers now0 shown (pre ++ [(e, now)]) =
      processEvent numSpeakers (reconcile numSpeakers now0 shown pre) e now := by
  simp [reconcile, List.foldl_append]

theorem processEvent_top_none (numSpeakers : Nat) (st : Reconciler) (e : Event) (now : Int)
    (htop : e.top = none) : processEvent numSpeakers st e now = st := by
  unfold Event.top at htop
  unfold processEvent
  cases hr : e.firstResult with
  | none => rfl
  | some result =>
    cases ha : result.firstAlternative with
    | none => simp only [ha]
    | some alternative => simp [hr, ha] at htop

theorem processEvent_top_some (numSpeakers : Nat) (st : Reconciler) (e : Event) (now : Int)
    (result : Result) (alternative : Alternative) (htop : e.top = some (result, alternative)) :
    processEvent numSpeakers st e now =
      if truthyBool result.IsPartial then
        if now - st.lastPartialTimestamp > 100 then
          { st with
            currentTranscript := newTextOf alternative
            lastPartialTimestamp := now
            transcription := jsJoin "\n" ((st.completeTranscripts ++
              [speakerLabel numSpeakers result alternative ++ newTextOf alternative]).filter
                (fun s => s != ""))
            emitted := st.emitted ++ [jsJoin "\n" ((st.completeTranscripts ++
              [speakerLabel numSpeakers result alternative ++ newTextOf alternative]).filter
                (fun s => s != ""))] }
        else st
      else
        { st with
          completeTranscripts := st.completeTranscripts ++
            [speakerLabel numSpeakers result alternative ++ newTextOf alternative]
          currentTranscript := ""
          transcription := jsJoin "\n" (st.completeTranscripts ++
            [speakerLabel numSpeakers result alternative ++ newTextOf alternative])
          emitted := st.emitted ++ [jsJoin "\n" (st.completeTranscripts ++
            [speakerLabel numSpeakers result alternative ++ newTextOf alternative])] } := by
  unfold Event.top at htop
  unfold processEvent
  cases hr : e.firstResult with
  | none => simp [hr] at htop
  | some r =>
    cases ha : r.firstAlternative with
    | none => simp [hr, ha] at htop
    | some a =>
      simp only [hr, ha, Option.some.injEq, Prod.mk.injEq] at htop
      obtain ⟨h1, h2⟩ := htop
      subst h1
      subst h2
      simp only [decide_eq_true_eq, ha]

theorem processEvent_final (numSpeakers : Nat) (st : Reconciler) (e : Event) (now : Int)
    (hfinal : e.isFinal = true) :
    processEvent numSpeakers st e now =
      { st with
        completeTranscripts := st.completeTranscripts ++ [e.label numSpeakers ++ e.text]
        currentTranscript := ""
        transcription :=
          jsJoin "\n" (st.completeTranscripts ++ [e.label numSpeakers ++ e.text])
        emitted := st.emitted ++
          [jsJoin "\n" (st.completeTranscripts ++ [e.label numSpeakers ++ e.text])] } := by
  cases htop : e.top with
  | none => simp [Event.isFinal, htop] at hfinal
  | some ra =>
    obtain ⟨result, alternative⟩ := ra
    rw [processEvent_top_some numSpeakers st e now result alternative htop]
    simp only [Event.isFinal, htop, Bool.not_eq_true'] at hfinal
    simp [hfinal, Event.label, Event.text, htop]

theorem processEvent_not_final_complete (numSpeakers : Nat) (st : Reconciler) (e : Event)
    (now : Int) (hfinal : e.isFinal = false) :
    (processEvent numSpeakers st e now).completeTranscripts = st.completeTranscripts := by
  cases htop : e.top with
  | none => rw [processEvent_top_none numSpeakers st e now htop]
  | some ra =>
    obtain ⟨result, alternative⟩ := ra
    rw [processEvent_top_some numSpeakers st e now result alternative htop]
    simp only [Event.isFinal, htop, Bool.not_eq_false'] at hfinal
    simp only [hfinal, if_true]
    split <;> rfl

theorem foldl_completeTranscripts (numSpeakers : Nat) (events : List (Event × Int))
    (st : Reconciler) :
    (events.foldl (fun st en => processEvent numSpeakers st en.1 en.2) st).completeTranscripts =
      st.completeTranscripts ++ finalSegments numSpeakers (events.map Prod.fst) := by
  induction events generalizing st with
  | nil => simp [finalSegments]
  | cons en rest ih =>
    rw [List.foldl_cons, ih]
    cases hf : en.1.isFinal with
    | true =>
      rw [processEvent_final numSpeakers st en.1 en.2 hf]
      simp [finalSegments, hf]
    | false =>
      rw [processEvent_not_final_complete numSpeakers st en.1 en.2 hf]
      simp [finalSegments, hf]

theorem reconcile_completeTranscripts (numSpeakers : Nat) (now0 : Int) (shown : String)
    (events : List (Event × Int)) :
    (reconcile numSpeakers now0 shown events).completeTranscripts =
      finalSegments numSpeakers (events.map Prod.fst) := by
  simp [reconcile, foldl_completeTranscripts, Reconciler.fresh]

theorem finalSegments_snoc_final (numSpeakers : Nat) (events : List Event) (e : Event)
    (hfinal : e.isFinal = true) :
    finalSegments numSpeakers (events ++ [e]) =
      finalSegments numSpeakers events ++ [e.label numSpeakers ++ e.text] := by
  simp [finalSegments, List.filter_append, hfinal]

theorem reconcile_final_transcription (numSpeakers : Nat) (now0 : Int) (shown : String)
    (pre : List (Event × Int)) (e : Event) (now : Int) (hfinal : e.isFinal = true) :
    (reconcile numSpeakers now0 shown (pre ++ [(e, now)])).transcription =
      jsJoin "\n" (finalSegments numSpeakers (pre.map Prod.fst ++ [e])) := by
  rw [reconcile_snoc, processEvent_final _ _ _ _ hfinal, finalSegments_snoc_final _ _ _ hfinal,
    reconcile_completeTranscripts]

/-- C1: from a fresh loop state, right after a final event `e` is processed
the string passed to `setTranscription` (and so the displayed transcription) is
the `"\n"`-join of `label + text` over all final events delivered so far, in
arrival order, whatever partial or ignored events and timestamps came before;
exactly one string is emitted for `e`, and the stored segments are those of
the finals, empty texts included. -/
theorem C1_final_display (numSpeakers : Nat) (now0 : Int) (shown : String)
    (pre : List (Event × Int)) (e : Event) (now : Int) (hfinal : e.isFinal = true) :
    (reconcile numSpeakers now0 shown (pre ++ [(e, now)])).emitted =
        (reconcile numSpeakers now0 shown pre).emitted ++
          [jsJoin "\n" (finalSegments numSpeakers (pre.map Prod.fst ++ [e]))]
      ∧ (reconcile numSpeakers now0 shown (pre ++ [(e, now)])).transcription =
          jsJoin "\n" (finalSegments numSpeakers (pre.map Prod.fst ++ [e]))
      ∧ (reconcile numSpeakers now0 shown (pre ++ [(e, now)])).completeTranscripts =
          finalSegments numSpeakers (pre.map Prod.fst ++ [e]) := by
  rw [reconcile_snoc, processEvent_final _ _ _ _ hfinal, finalSegments_snoc_final _ _ _ hfinal,
    reconcile_completeTranscripts]
  exact ⟨rfl, rfl, rfl⟩

/-- Witness of C1: a throttled partial, an accepted partial and two finals,
the second with empty text. -/
theorem C1_final_display_witness :
    (reconcile 1 0 "" ([(mkEvent true "a" none none, 50), (mkEvent false "hello" none none, 60),
        (mkEvent true "b" none none, 500)] ++ [(mkEvent false "" none none, 501)])).emitted =
      (reconcile 1 0 "" [(mkEvent true "a" none none, 50), (mkEvent false "hello" none none, 60),
        (mkEvent true "b" none none, 500)]).emitted ++ ["hello\n"] :=
  (C1_final_display 1 0 ""
    [(mkEvent true "a" none none, 50), (mkEvent false "hello" none none, 60),
      (mkEvent true "b" none none, 500)]
    (mkEvent false "" none none) 501 (by decide)).1

/-- C2, as stated, fails: with two speakers the display after the finals
"hello" of speaker "1" and "world" of speaker "2" is not the string with the
English word, whether the speaker is attributed on the items or on the result. -/
theorem C2_english_label_counterexample :
    (reconcile 2 0 "" [(mkEvent false "hello" (some [⟨some "1"⟩]) none, 5),
        (mkEvent false "world" (some [⟨some "2"⟩]) none, 6)]).transcription
      ≠ "[Speaker 1]: hello\n[Speaker 2]: world"
    ∧ (reconcile 2 0 "" [(mkEvent false "hello" none (some "1"), 5),
        (mkEvent false "world" none (some "2"), 6)]).transcription
      ≠ "[Speaker 1]: hello\n[Speaker 2]: world" := by
  decide

/-- C2, amended: with more than one speaker the label is `"[דובר " + s + "]: "`
for the speaker id `s` the block interpolates (and empty when it interpolates
none); with two speakers, a final "hello" of speaker "1" then a final "world"
of speaker "2" display `"[דובר 1]: hello\n[דובר 2]: world"`, at any
timestamps, for item-level and for result-level attribution. -/
theorem C2_hebrew_label (numSpeakers : Nat) (result : Result) (alternative : Alternative)
    (now0 t1 t2 : Int) (shown : String) (hn : numSpeakers > 1) :
    speakerLabel numSpeakers result alternative =
        (match speakerId result alternative with
          | some s => "[דובר " ++ s ++ "]: "
          | none => "")
      ∧ (reconcile 2 now0 shown [(mkEvent false "hello" (some [⟨some "1"⟩]) none, t1),
          (mkEvent false "world" (some [⟨some "2"⟩]) none, t2)]).transcription
        = "[דובר 1]: hello\n[דובר 2]: world"
      ∧ (reconcile 2 now0 shown [(mkEvent false "hello" none (some "1"), t1),
          (mkEvent false "world" none (some "2"), t2)]).transcription
        = "[דובר 1]: hello\n[דובר 2]: world" := by
  refine ⟨?_, ?_, ?_⟩
  · unfold speakerLabel speakerId
    simp only [hn, if_true]
    split
    · split <;> simp_all
    · split <;> simp_all
  · rfl
  · rfl

/-- Witness of the amended C2: three speakers, the second item carries the tag "7". -/
theorem C2_hebrew_label_witness :
    speakerLabel 3 { Alternatives := none, IsPartial := none, Speaker := some "4" }
        { Transcript := some "x", Items := some [⟨none⟩, ⟨some "7"⟩] } = "[דובר 7]: " :=
  (C2_hebrew_label 3 { Alternatives := none, IsPartial := none, Speaker := some "4" }
    { Transcript := some "x", Items := some [⟨none⟩, ⟨some "7"⟩] } 0 1 2 "" (by decide)).1

/-- C3, the code at the failing input: with two speakers, a result attributed
to speaker "1" at result level whose top alternative has one item without a
speaker tag gets the empty label, and the final segment is the bare text. -/
theorem C3_untagged_items_drop_result_speaker :
    speakerLabel 2
        { Alternatives := some [{ Transcript := some "hello", Items := some [⟨none⟩] }]
          IsPartial := some false, Speaker := some "1" }
        { Transcript := some "hello", Items := some [⟨none⟩] } = ""
    ∧ (reconcile 2 0 "" [(mkEvent false "hello" (some [⟨none⟩]) (some "1"), 5)]).transcription
        = "hello"
    ∧ (reconcile 2 0 "" [(mkEvent false "hello" (some []) (some "1"), 5)]).transcription
        = "[דובר 1]: hello" := by
  decide

theorem processEvent_pending (numSpeakers : Nat) (st : Reconciler) (e : Event) (now : Int)
    (hpart : e.isPartial = true) :
    processEvent numSpeakers st e now =
      if now - st.lastPartialTimestamp > 100 then
        { st with
          currentTranscript := e.text
          lastPartialTimestamp := now
          transcription := jsJoin "\n" ((st.completeTranscripts ++
            [e.label numSpeakers ++ e.text]).filter (fun s => s != ""))
          emitted := st.emitted ++ [jsJoin "\n" ((st.completeTranscripts ++
            [e.label numSpeakers ++ e.text]).filter (fun s => s != ""))] }
      else st := by
  cases htop : e.top with
  | none => simp [Event.isPartial, htop] at hpart
  | some ra =>
    obtain ⟨result, alternative⟩ := ra
    rw [processEvent_top_some numSpeakers st e now result alternative htop]
    simp only [Event.isPartial, htop] at hpart
    simp only [hpart, if_true, Event.label, Event.text, htop]

/-- C4, as stated, fails: a partial arriving exactly 100 ms after the throttle
timestamp (so `now - last >= 100`) changes nothing and emits nothing. -/
theorem C4_exactly_100ms_counterexample :
    (100 : Int) - (Reconciler.fresh 0 "").lastPartialTimestamp ≥ 100
    ∧ (mkEvent true "hel" none none).isPartial = true
    ∧ processEvent 1 (Reconciler.fresh 0 "") (mkEvent true "hel" none none) 100
        = Reconciler.fresh 0 "" := by
  decide

/-- C4, amended: for a partial event at time `now` the display is updated
(one string emitted, pending text replaced, `last` set to `now`, final segments
kept) if and only if `now - last > 100`; otherwise the state is unchanged and
nothing is emitted; and after an accepted partial, a partial more than 100 ms
later is accepted too, so both displays are emitted in order. -/
theorem C4_partial_throttle (numSpeakers : Nat) (st : Reconciler) (e : Event) (now : Int)
    (hpart : e.isPartial = true) :
    ((processEvent numSpeakers st e now).emitted.length = st.emitted.length + 1
        ↔ now - st.lastPartialTimestamp > 100)
    ∧ (now - st.lastPartialTimestamp > 100 →
        processEvent numSpeakers st e now =
          { st with
            currentTranscript := e.text
            lastPartialTimestamp := now
            transcription := jsJoin "\n" ((st.completeTranscripts ++
              [e.label numSpeakers ++ e.text]).filter (fun s => s != ""))
            emitted := st.emitted ++ [jsJoin "\n" ((st.completeTranscripts ++
              [e.label numSpeakers ++ e.text]).filter (fun s => s != ""))] })
    ∧ (¬ now - st.lastPartialTimestamp > 100 → processEvent numSpeakers st e now = st)
    ∧ (∀ (e2 : Event) (now2 : Int), e2.isPartial = true →
        now - st.lastPartialTimestamp > 100 → now2 - now > 100 →
        (processEvent numSpeakers (processEvent numSpeakers st e now) e2 now2).emitted =
          st.emitted ++
            [jsJoin "\n" ((st.completeTranscripts ++
                [e.label numSpeakers ++ e.text]).filter (fun s => s != "")),
             jsJoin "\n" ((st.completeTranscripts ++
                [e2.label numSpeakers ++ e2.text]).filter (fun s => s != ""))]) := by
  have hstep := processEvent_pending numSpeakers st e now hpart
  refine ⟨?_, ?_, ?_, ?_⟩
  · rw [hstep]
    by_cases h : now - st.lastPartialTimestamp > 100
    · simp [h]
    · simp [h]
  · intro h
    rw [hstep, if_pos h]
  · intro h
    rw [hstep, if_neg h]
  · intro e2 now2 hp2 h h2
    rw [processEvent_pending numSpeakers _ e2 now2 hp2, hstep, if_pos h]
    simp only [if_pos h2, List.append_assoc, List.singleton_append]

/-- Witness of the amended C4: a partial 101 ms after the throttle timestamp. -/
theorem C4_partial_throttle_witness :
    processEvent 1 (Reconciler.fresh 0 "") (mkEvent true "hel" none none) 101 =
      { currentTranscript := "hel", lastPartialTimestamp := 101, completeTranscripts := []
        transcription := "hel", emitted := ["hel"] } :=
  ((C4_partial_throttle 1 (Reconciler.fresh 0 "") (mkEvent true "hel" none none) 101
    (by decide)).2.1 (by decide)).trans (by decide)

/-- C5, as stated, fails: with no final segment yet, an accepted partial "hel"
displays `"hel"`, not `join([], "\n") + "\n" + "hel"`; and after an empty
final segment an accepted partial displays the bare text as well. -/
theorem C5_filter_counterexample :
    (processEvent 1 (Reconciler.fresh 0 "") (mkEvent true "hel" none none) 500).emitted = ["hel"]
    ∧ "hel" ≠ jsJoin "\n" [] ++ "\n" ++ ("" ++ "hel")
    ∧ (reconcile 1 0 "" [(mkEvent false "" none none, 5),
          (mkEvent true "hel" none none, 500)]).emitted = ["", "hel"]
    ∧ "hel" ≠ jsJoin "\n" [""] ++ "\n" ++ ("" ++ "hel") := by
  decide

theorem filter_nonempty_self (xs : List String) (h : ∀ s ∈ xs, s ≠ "") :
    xs.filter (fun s => s != "") = xs := by
  rw [List.filter_eq_self]
  intro s hs
  simpa using h s hs

/-- C5, amended: a throttle-accepted partial with label `l` and text `t`, in a
state with final segments `fs`, emits the `"\n"`-join of the non-empty strings
among `fs` followed by `l + t`; when `fs` is non-empty, holds no empty segment
and `l + t` is non-empty, that is `join(fs, "\n") + "\n" + (l + t)`. -/
theorem C5_partial_display (numSpeakers : Nat) (st : Reconciler) (e : Event) (now : Int)
    (hpart : e.isPartial = true) (haccept : now - st.lastPartialTimestamp > 100) :
    (processEvent numSpeakers st e now).emitted =
        st.emitted ++ [jsJoin "\n" ((st.completeTranscripts ++
          [e.label numSpeakers ++ e.text]).filter (fun s => s != ""))]
    ∧ (st.completeTranscripts ≠ [] → (∀ s ∈ st.completeTranscripts, s ≠ "") →
        e.label numSpeakers ++ e.text ≠ "" →
        (processEvent numSpeakers st e now).emitted =
          st.emitted ++ [jsJoin "\n" st.completeTranscripts ++ "\n" ++
            (e.label numSpeakers ++ e.text)]) := by
  have hstep := processEvent_pending numSpeakers st e now hpart
  rw [if_pos haccept] at hstep
  refine ⟨by rw [hstep], ?_⟩
  intro hne hall hseg
  rw [hstep]
  have hfilter : (st.completeTranscripts ++ [e.label numSpeakers ++ e.text]).filter
      (fun s => s != "") = st.completeTranscripts ++ [e.label numSpeakers ++ e.text] := by
    apply filter_nonempty_self
    intro s hs
    rcases List.mem_append.mp hs with h | h
    · exact hall s h
    · rw [List.mem_singleton.mp h]
      exact hseg
  simp only [hfilter, jsJoin_snoc "\n" _ _ hne]

/-- Witness of the amended C5: one final segment "a", then an accepted partial "hel". -/
theorem C5_partial_display_witness :
    (processEvent 1
        { currentTranscript := "", lastPartialTimestamp := 0, completeTranscripts := ["a"]
          transcription := "a", emitted := ["a"] }
        (mkEvent true "hel" none none) 500).emitted = ["a"] ++ ["a\nhel"] :=
  ((C5_partial_display 1
      { currentTranscript := "", lastPartialTimestamp := 0, completeTranscripts := ["a"]
        transcription := "a", emitted := ["a"] }
      (mkEvent true "hel" none none) 500 (by decide) (by decide)).2
    (by decide) (by decide) (by decide)).trans (by decide)

/-! ## The polling loop of `loadTranscription` -/

theorem pollForTranscription_none (o : FetchOutcome) (sessionId : String) (st : HookState)
    (h : o.found = none) :
    pollForTranscription o sessionId st = (false, st.log (.getFirstTranscription sessionId)) := by
  unfold pollForTranscription
  cases o with
  | threw => rfl
  | returned text =>
    cases text with
    | none => rfl
    | some t =>
      by_cases ht : t = ""
      · simp [truthyStr, ht]
      · simp [FetchOutcome.found, ht] at h

theorem pollForTranscription_some (o : FetchOutcome) (sessionId t : String) (st : HookState)
    (h : o.found = some t) :
    pollForTranscription o sessionId st =
      (true, { st.log (.getFirstTranscription sessionId) with transcription := t }) := by
  unfold pollForTranscription
  cases o with
  | threw => simp [FetchOutcome.found] at h
  | returned text =>
    cases text with
    | none => simp [FetchOutcome.found] at h
    | some u =>
      by_cases hu : u = ""
      · simp [FetchOutcome.found, hu] at h
      · simp only [FetchOutcome.found, bne_iff_ne, ne_eq, hu, not_false_eq_true, if_true,
          Option.some.injEq] at h
        subst h
        simp [truthyStr, strOf, hu]

theorem poll_timeout (fetch : Nat → FetchOutcome) (sessionId : String) :
    ∀ (d attempts : Nat) (st : HookState), maxAttempts - attempts = d →
      (∀ j, attempts ≤ j → j < maxAttempts → (fetch j).found = none) →
      poll fetch sessionId attempts st =
        ({ st with effects := st.effects ++ fetchAttempts sessionId d },
          some "Timeout waiting for transcription") := by
  intro d
  induction d with
  | zero =>
    intro attempts st hd _
    rw [poll, dif_pos (by omega)]
    simp [fetchAttempts]
  | succ d ih =>
    intro attempts st hd hnone
    rw [poll, dif_neg (by omega)]
    simp only [pollForTranscription_none _ sessionId st
      (hnone attempts (Nat.le_refl _) (by omega)), Bool.not_false, if_true]
    rw [ih (attempts + 1) _ (by omega) (fun j h1 h2 => hnone j (by omega) h2)]
    simp [HookState.log, fetchAttempts, List.replicate_succ]

theorem poll_found (fetch : Nat → FetchOutcome) (sessionId t : String) (k : Nat)
    (hk : k < maxAttempts) (hfound : (fetch k).found = some t) :
    ∀ (d attempts : Nat) (st : HookState), k = attempts + d →
      (∀ j, attempts ≤ j → j < k → (fetch j).found = none) →
      poll fetch sessionId attempts st =
        ({ st with
            transcription := t
            effects := st.effects ++ fetchAttempts sessionId (d + 1) }, none) := by
  intro d
  induction d with
  | zero =>
    intro attempts st hd _
    have hka : attempts = k := by omega
    subst hka
    rw [poll, dif_neg (by omega)]
    simp [pollForTranscription_some _ sessionId t st hfound, HookState.log, fetchAttempts]
  | succ d ih =>
    intro attempts st hd hnone
    rw [poll, dif_neg (by omega)]
    simp only [pollForTranscription_none _ sessionId st
      (hnone attempts (Nat.le_refl _) (by omega)), Bool.not_false, if_true]
    rw [ih (attempts + 1) _ (by omega) (fun j h1 h2 => hnone j (by omega) h2)]
    simp [HookState.log, fetchAttempts, List.replicate_succ]

theorem poll_attempts_bounded (fetch : Nat → FetchOutcome) (sessionId : String) :
    ∀ (d attempts : Nat) (st : HookState), maxAttempts - attempts = d →
      ∃ n, n ≤ d ∧
        (poll fetch sessionId attempts st).1.effects = st.effects ++ fetchAttempts sessionId n := by
  intro d
  induction d with
  | zero =>
    intro attempts st hd
    refine ⟨0, Nat.le_refl _, ?_⟩
    rw [poll, dif_pos (by omega)]
    simp [fetchAttempts]
  | succ d ih =>
    intro attempts st hd
    rw [poll, dif_neg (by omega)]
    cases hf : (fetch attempts).found with
    | none =>
      simp only [pollForTranscription_none _ sessionId st hf, Bool.not_false, if_true]
      obtain ⟨n, hn, heq⟩ := ih (attempts + 1)
        (st.log (.getFirstTranscription sessionId)) (by omega)
      refine ⟨n + 1, by omega, ?_⟩
      rw [heq]
      simp [HookState.log, fetchAttempts, List.replicate_succ]
    | some t =>
      refine ⟨1, by omega, ?_⟩
      simp [pollForTranscription_some _ sessionId t st hf, HookState.log, fetchAttempts]

/-- C8: whatever each fetch does, `loadTranscription` returns with
`isLoadingTranscription` false after at most 120 fetches; if the fetch at
counter `k < 120` (attempt `k + 1`) is the first with non-empty text, exactly
`k + 1` fetches are made, the transcription is that text and the error is
empty; if none of the 120 fetches has text (a throwing one counts as absent),
exactly 120 fetches are made and the error is the timeout message. -/
theorem C8_loadTranscription_poll (fetch : Nat → FetchOutcome) (sessionId : String)
    (st : HookState) :
    (loadTranscription fetch sessionId st).isLoadingTranscription = false
    ∧ (∃ n, n ≤ 120 ∧ (loadTranscription fetch sessionId st).effects =
        st.effects ++ fetchAttempts sessionId n)
    ∧ (∀ (k : Nat) (t : String), k < 120 → (fetch k).found = some t →
        (∀ j, j < k → (fetch j).found = none) →
        loadTranscription fetch sessionId st =
          { st with
            isLoadingTranscription := false
            error := ""
            transcription := t
            effects := st.effects ++ fetchAttempts sessionId (k + 1) })
    ∧ ((∀ j, j < 120 → (fetch j).found = none) →
        loadTranscription fetch sessionId st =
          { st with
            isLoadingTranscription := false
            error := "Failed to load transcription: Timeout waiting for transcription"
            effects := st.effects ++ fetchAttempts sessionId 120 }) := by
  refine ⟨?_, ?_, ?_, ?_⟩
  · simp [loadTranscription]
  · obtain ⟨n, hn, heq⟩ := poll_attempts_bounded fetch sessionId maxAttempts 0
      { st with isLoadingTranscription := true, error := "" } rfl
    refine ⟨n, hn, ?_⟩
    unfold loadTranscription
    simp only
    split <;> simp [heq]
  · intro k t hk hfound hfirst
    unfold loadTranscription
    simp only
    rw [poll_found fetch sessionId t k hk hfound k 0 _ (by omega)
      (fun j _ h2 => hfirst j h2)]
  · intro hnone
    unfold loadTranscription
    simp only
    rw [poll_timeout fetch sessionId maxAttempts 0 _ rfl (fun j _ h2 => hnone j h2)]
    rfl

/-- Witness of C8: the first two fetches throw or return nothing, the third
returns "text". -/
theorem C8_loadTranscription_poll_witness :
    loadTranscription
        (fun k => if k = 0 then .threw else if k = 1 then .returned (some "")
          else .returned (some "text"))
        "s1" HookState.initial =
      { HookState.initial with
        isLoadingTranscription := false
        error := ""
        transcription := "text"
        effects := HookState.initial.effects ++ fetchAttempts "s1" (2 + 1) } :=
  (C8_loadTranscription_poll
      (fun k => if k = 0 then .threw else if k = 1 then .returned (some "")
        else .returned (some "text"))
      "s1" HookState.initial).2.2.1 2 "text" (by decide) (by decide)
    (by intro j hj; interval_cases j <;> decide)

/-! ## The file gate of `handleFileSelect` -/

theorem poll_shape (fetch : Nat → FetchOutcome) (sessionId : String) :
    ∀ (d attempts : Nat) (st : HookState), maxAttempts - attempts = d →
      ∃ (n : Nat) (tr : String),
        (poll fetch sessionId attempts st).1 =
          { st with transcription := tr, effects := st.effects ++ fetchAttempts sessionId n } := by
  intro d
  induction d with
  | zero =>
    intro attempts st hd
    refine ⟨0, st.transcription, ?_⟩
    rw [poll, dif_pos (by omega)]
    simp [fetchAttempts]
  | succ d ih =>
    intro attempts st hd
    rw [poll, dif_neg (by omega)]
    cases hf : (fetch attempts).found with
    | none =>
      simp only [pollForTranscription_none _ sessionId st hf, Bool.not_false, if_true]
      obtain ⟨n, tr, heq⟩ := ih (attempts + 1)
        (st.log (.getFirstTranscription sessionId)) (by omega)
      refine ⟨n + 1, tr, ?_⟩
      rw [heq]
      simp [HookState.log, fetchAttempts, List.replicate_succ]
    | some t =>
      refine ⟨1, t, ?_⟩
      simp [pollForTranscription_some _ sessionId t st hf, HookState.log, fetchAttempts]

theorem loadTranscription_shape (fetch : Nat → FetchOutcome) (sessionId : String)
    (st : HookState) :
    ∃ (n : Nat) (tr err : String),
      loadTranscription fetch sessionId st =
        { st with
          isLoadingTranscription := false
          error := err
          transcription := tr
          effects := st.effects ++ fetchAttempts sessionId n } := by
  obtain ⟨n, tr, heq⟩ := poll_shape fetch sessionId maxAttempts 0
    { st with isLoadingTranscription := true, error := "" } rfl
  unfold loadTranscription
  simp only
  cases hm : (poll fetch sessionId 0 { st with isLoadingTranscription := true, error := "" }).2 with
  | none => exact ⟨n, tr, "", by rw [heq]⟩
  | some message => exact ⟨n, tr, "Failed to load transcription: " ++ message, by rw [heq]⟩

theorem loadTranscription_sessionId (fetch : Nat → FetchOutcome) (sessionId : String)
    (st : HookState) (sid : Option String) (h : st.sessionId = sid) :
    (loadTranscription fetch sessionId st).sessionId = sid := by
  obtain ⟨n, tr, err, heq⟩ := loadTranscription_shape fetch sessionId st
  rw [heq]
  exact h

theorem loadTranscription_effects (fetch : Nat → FetchOutcome) (sessionId : String)
    (st : HookState) (before : List Effect) (h : st.effects = before) :
    ∃ rest, (loadTranscription fetch sessionId st).effects = before ++ rest := by
  obtain ⟨n, tr, err, heq⟩ := loadTranscription_shape fetch sessionId st
  rw [heq]
  exact ⟨fetchAttempts sessionId n, by simp [h]⟩

theorem handleFileSelect_supported (env : FileEnv) (st : HookState) (file : File)
    (h : isSupported file = true) :
    (handleFileSelect env st (some file)).sessionId = some env.newSessionId
    ∧ ∃ rest, (handleFileSelect env st (some file)).effects =
        st.effects ++ [Effect.createSessionId, Effect.uploadMedia file env.newSessionId] ++ rest := by
  unfold handleFileSelect
  simp only [h, Bool.not_true, Bool.false_eq_true, if_false, HookState.log]
  cases env.uploadMedia with
  | error message => exact ⟨rfl, [], by simp⟩
  | ok u =>
    simp only
    split
    · exact ⟨loadTranscription_sessionId _ _ _ _ rfl,
        loadTranscription_effects _ _ _ _ (by simp)⟩
    · exact ⟨loadTranscription_sessionId _ _ _ _ rfl,
        loadTranscription_effects _ _ _ _ (by simp)⟩

/-- C6, as stated, fails: a file of declared type "application/pdf" named
"scan.MPEG" passes the gate; a session id is created and set and the upload
is attempted. -/
theorem C6_pdf_named_mpeg_counterexample :
    isSupported { name := "scan.MPEG", type := "application/pdf", size := 10 } = true
    ∧ (handleFileSelect
        { newSessionId := "s1", uploadMedia := .error "offline", fetch := fun _ => .threw }
        HookState.initial
        (some { name := "scan.MPEG", type := "application/pdf", size := 10 })) =
      { HookState.initial with
        selectedFileName := "scan.MPEG"
        error := "Failed to process file: offline"
        sessionId := some "s1"
        effects := [Effect.createSessionId,
          Effect.uploadMedia { name := "scan.MPEG", type := "application/pdf", size := 10 } "s1"] } := by
  decide

/-- C6, amended: a file of declared type "audio/mpeg" is accepted whatever its
name (the session id is created and set, the upload attempted); a file of
declared type "application/pdf" whose lower-cased name does not end in the
segment "mpeg" after its last dot is rejected: the only change is the
unsupported-file message in `error`, so no session id is created, no upload
attempted and `sessionId` is unchanged; a "application/pdf" file whose name
does end so is accepted like an audio file. -/
theorem C6_file_gate (env : FileEnv) (st : HookState) (file : File) :
    (file.type = "audio/mpeg" →
      isSupported file = true
      ∧ (handleFileSelect env st (some file)).sessionId = some env.newSessionId
      ∧ ∃ rest, (handleFileSelect env st (some file)).effects =
          st.effects ++ [Effect.createSessionId, Effect.uploadMedia file env.newSessionId] ++ rest)
    ∧ (file.type = "application/pdf" → fileExtension file.name ≠ "mpeg" →
      isSupported file = false
      ∧ handleFileSelect env st (some file) = { st with error := unsupportedFileMessage })
    ∧ (file.type = "application/pdf" → fileExtension file.name = "mpeg" →
      isSupported file = true
      ∧ (handleFileSelect env st (some file)).sessionId = some env.newSessionId
      ∧ ∃ rest, (handleFileSelect env st (some file)).effects =
          st.effects ++ [Effect.createSessionId, Effect.uploadMedia file env.newSessionId] ++ rest) := by
  refine ⟨?_, ?_, ?_⟩
  · intro htype
    have hs : isSupported file = true := by
      simp [isSupported, htype, supportedAudioTypes]
    exact ⟨hs, handleFileSelect_supported env st file hs⟩
  · intro htype hext
    have hs : isSupported file = false := by
      simp [isSupported, htype, supportedAudioTypes, hext]
    refine ⟨hs, ?_⟩
    simp [handleFileSelect, hs]
  · intro htype hext
    have hname : file.name ≠ "" := by
      intro h0
      rw [h0] at hext
      exact absurd hext (by decide)
    have hs : isSupported file = true := by
      simp [isSupported, htype, supportedAudioTypes, hext, hname]
    exact ⟨hs, handleFileSelect_supported env st file hs⟩

/-- Witness of the amended C6: "report.pdf" of declared type "application/pdf"
is rejected on a fresh hook. -/
theorem C6_file_gate_witness :
    isSupported { name := "report.pdf", type := "application/pdf", size := 10 } = false
    ∧ handleFileSelect
        { newSessionId := "s1", uploadMedia := .ok (), fetch := fun _ => .threw }
        HookState.initial
        (some { name := "report.pdf", type := "application/pdf", size := 10 }) =
      { HookState.initial with error := unsupportedFileMessage } :=
  (C6_file_gate { newSessionId := "s1", uploadMedia := .ok (), fetch := fun _ => .threw }
    HookState.initial { name := "report.pdf", type := "application/pdf", size := 10 }).2.1
    rfl (by decide)

/-! ## The audio queue -/

theorem onmessage_frame (st : StreamState) (m : WorkletMessage) :
    onmessage st m =
      match m.frame with
      | some b => { st with audioQueue := st.audioQueue ++ [b] }
      | none => st := by
  unfold onmessage WorkletMessage.frame
  cases m.audioData with
  | none => rfl
  | some audioData =>
    simp only
    cases toBuffer audioData with
    | none => rfl
    | some buffer =>
      simp only
      split <;> rfl

theorem tick_streaming (st : StreamState) (h : st.isStreaming = true) :
    (∀ chunk rest, st.audioQueue = chunk :: rest →
      tick st = { st with
        audioQueue := rest
        enqueued := st.enqueued ++ [chunk]
        accumulatedBytes := st.accumulatedBytes + chunk.length })
    ∧ (st.audioQueue = [] → tick st = st) := by
  constructor
  · intro chunk rest hq
    simp [tick, h, hq]
  · intro hq
    simp [tick, h, hq]

theorem apply_invariant (st : StreamState) (op : QueueOp) (h : st.isStreaming = true) :
    (op.apply st).isStreaming = true
    ∧ (op.apply st).enqueued ++ (op.apply st).audioQueue =
        st.enqueued ++ st.audioQueue ++ pushedFrames [op] := by
  cases op with
  | message m =>
    simp only [QueueOp.apply, onmessage_frame, pushedFrames]
    cases m.frame with
    | none => simp [h]
    | some b => simp [h]
  | tick =>
    simp only [QueueOp.apply, pushedFrames, List.append_nil]
    cases hq : st.audioQueue with
    | nil => rw [(tick_streaming st h).2 hq]; simp [h, hq]
    | cons chunk rest => rw [(tick_streaming st h).1 chunk rest hq]; simp [h]

theorem pushedFrames_cons (op : QueueOp) (ops : List QueueOp) :
    pushedFrames (op :: ops) = pushedFrames [op] ++ pushedFrames ops := by
  cases op with
  | message m =>
    simp only [pushedFrames]
    cases m.frame <;> simp
  | tick => simp [pushedFrames]

theorem runQueue_invariant (ops : List QueueOp) :
    ∀ (st : StreamState), st.isStreaming = true →
      (runQueue st ops).isStreaming = true
      ∧ (runQueue st ops).enqueued ++ (runQueue st ops).audioQueue =
          st.enqueued ++ st.audioQueue ++ pushedFrames ops := by
  induction ops with
  | nil => intro st h; simp [runQueue, pushedFrames, h]
  | cons op ops ih =>
    intro st h
    obtain ⟨h1, h2⟩ := apply_invariant st op h
    obtain ⟨h3, h4⟩ := ih (op.apply st) h1
    have hrun : runQueue st (op :: ops) = runQueue (op.apply st) ops := rfl
    rw [hrun, pushedFrames_cons op ops]
    refine ⟨h3, ?_⟩
    rw [h4, h2]
    simp

/-- C7: while streaming is on, for every interleaving of worklet messages and
ticks from the initial state, the frames forwarded so far followed by the
frames still queued are exactly the pushed frames in push order; a tick on a
non-empty queue forwards exactly its oldest frame and removes it, a tick on an
empty queue changes nothing; pushing three frames and ticking three times
forwards the three frames in push order and leaves the queue empty. -/
theorem C7_queue_fifo (ops : List QueueOp) (m1 m2 m3 : WorkletMessage) (f1 f2 f3 : Buffer)
    (h1 : m1.frame = some f1) (h2 : m2.frame = some f2) (h3 : m3.frame = some f3) :
    ((runQueue StreamState.init ops).enqueued ++ (runQueue StreamState.init ops).audioQueue =
        pushedFrames ops
      ∧ (runQueue StreamState.init ops).isStreaming = true)
    ∧ (∀ chunk rest, (runQueue StreamState.init ops).audioQueue = chunk :: rest →
        tick (runQueue StreamState.init ops) =
          { runQueue StreamState.init ops with
            audioQueue := rest
            enqueued := (runQueue StreamState.init ops).enqueued ++ [chunk]
            accumulatedBytes := (runQueue StreamState.init ops).accumulatedBytes + chunk.length })
    ∧ ((runQueue StreamState.init ops).audioQueue = [] →
        tick (runQueue StreamState.init ops) = runQueue StreamState.init ops)
    ∧ (runQueue StreamState.init
          [.message m1, .message m2, .message m3, .tick, .tick, .tick]).enqueued = [f1, f2, f3]
    ∧ (runQueue StreamState.init
          [.message m1, .message m2, .message m3, .tick, .tick, .tick]).audioQueue = [] := by
  obtain ⟨hs, hinv⟩ := runQueue_invariant ops StreamState.init rfl
  refine ⟨⟨?_, hs⟩, (tick_streaming _ hs).1, (tick_streaming _ hs).2, ?_, ?_⟩
  · rw [hinv]
    simp [StreamState.init]
  · simp [runQueue, QueueOp.apply, onmessage_frame, h1, h2, h3, tick, StreamState.init]
  · simp [runQueue, QueueOp.apply, onmessage_frame, h1, h2, h3, tick, StreamState.init]

/-- Witness of C7: a tick on the empty queue, three active frames with a
silent one in between, then three ticks. -/
theorem C7_queue_fifo_witness :
    (runQueue StreamState.init
        [.message ⟨some [1, -1], 1⟩, .message ⟨some [256], 3⟩, .message ⟨some [-32768], 1⟩,
          .tick, .tick, .tick]).enqueued = [[1, 0, 255, 255], [0, 1], [0, 128]] :=
  (C7_queue_fifo [.tick, .message ⟨some [1], 1⟩, .message ⟨some [5], 0⟩, .tick]
    ⟨some [1, -1], 1⟩ ⟨some [256], 3⟩ ⟨some [-32768], 1⟩
    [1, 0, 255, 255] [0, 1] [0, 128] (by decide) (by decide) (by decide)).2.2.2.1

/-! ## `stopRecording` -/

theorem foldl_ondataavailable (flushed : List Blob) :
    ∀ (st : HookState), flushed.foldl ondataavailable st =
      { st with recordedChunks := st.recordedChunks ++ flushed.filter (fun d => d.size > 0) } := by
  induction flushed with
  | nil => intro st; simp
  | cons d rest ih =>
    intro st
    rw [List.foldl_cons, ih]
    by_cases hd : d.size > 0
    · simp [ondataavailable, hd, List.filter_cons]
    · simp [ondataavailable, hd, List.filter_cons]

theorem stopRecorder_eq (env : StopEnv) (st : HookState) :
    stopRecorder env st =
      { st with
        recordedChunks := chunksAtUpload env st
        mediaRecorder := if recorderActive st then some .inactive else st.mediaRecorder
        effects := st.effects ++ (if recorderActive st then [Effect.recorderStop] else []) } := by
  obtain ⟨isRecording, transcription, error, isProcessing, audioLevel, uploadingFile,
    selectedFileName, isLoadingTranscription, sessionId, recordedChunks, mediaRecorder,
    audioContext, workletNode, stream, gainNode, analyser, animationFrame, fileInputValue,
    effects⟩ := st
  unfold stopRecorder chunksAtUpload recorderActive
  cases mediaRecorder with
  | none => simp
  | some state =>
    by_cases ha : state = .inactive
    · simp [ha]
    · simp [ha, foldl_ondataavailable, HookState.log]

theorem persist_eq (env : StopEnv) (st : HookState) :
    persist env st =
      ({ st with effects := st.effects ++
          uploadsIssued env st.recordedChunks st.sessionId st.transcription },
        thrownMessage env st.recordedChunks) := by
  unfold persist uploadsIssued thrownMessage
  by_cases hc : st.recordedChunks.length > 0
  · simp only [hc, if_true, HookState.log]
    cases env.uploadRecording with
    | error message => simp
    | ok u =>
      cases env.uploadTranscription with
      | error message => simp
      | ok v => simp
  · simp [hc]

theorem stopRecordingFinally_eq (st : HookState) :
    stopRecordingFinally st =
      { st with
        stream := none
        workletNode := none
        gainNode := none
        analyser := none
        audioContext := if st.audioContext = some .running then none else st.audioContext
        mediaRecorder := none
        recordedChunks := []
        audioLevel := 0
        isProcessing := false
        effects := st.effects ++ teardownEffects st } := by
  obtain ⟨isRecording, transcription, error, isProcessing, audioLevel, uploadingFile,
    selectedFileName, isLoadingTranscription, sessionId, recordedChunks, mediaRecorder,
    audioContext, workletNode, stream, gainNode, analyser, animationFrame, fileInputValue,
    effects⟩ := st
  unfold stopRecordingFinally teardownEffects
  by_cases hctx : audioContext = some .running
  · cases animationFrame with
    | none =>
      cases stream <;> cases workletNode <;> cases gainNode <;> cases analyser <;>
        simp [HookState.log, hctx]
    | some id =>
      by_cases hid : id = 0
      · cases stream <;> cases workletNode <;> cases gainNode <;> cases analyser <;>
          simp [HookState.log, hctx, hid]
      · cases stream <;> cases workletNode <;> cases gainNode <;> cases analyser <;>
          simp [HookState.log, hctx, hid]
  · cases animationFrame with
    | none =>
      cases stream <;> cases workletNode <;> cases gainNode <;> cases analyser <;>
        simp [HookState.log, hctx]
    | some id =>
      by_cases hid : id = 0
      · cases stream <;> cases workletNode <;> cases gainNode <;> cases analyser <;>
          simp [HookState.log, hctx, hid]
      · cases stream <;> cases workletNode <;> cases gainNode <;> cases analyser <;>
          simp [HookState.log, hctx, hid]

theorem stopRecording_eq (env : StopEnv) (st : HookState) :
    stopRecording env st =
      { st with
        isRecording := false
        isProcessing := false
        error :=
          (match thrownMessage env (chunksAtUpload env st) with
            | some message => "Failed to save recording: " ++ message
            | none => st.error)
        stream := none
        workletNode := none
        gainNode := none
        analyser := none
        audioContext := if st.audioContext = some .running then none else st.audioContext
        mediaRecorder := none
        recordedChunks := []
        audioLevel := 0
        effects := st.effects ++ (if recorderActive st then [Effect.recorderStop] else [])
          ++ uploadsIssued env (chunksAtUpload env st) st.sessionId st.transcription
          ++ teardownEffects st } := by
  unfold stopRecording stopRecordingTry
  simp only [stopRecorder_eq, persist_eq, stopRecordingFinally_eq]
  have hch : chunksAtUpload env { st with isRecording := false, isProcessing := true } =
      chunksAtUpload env st := rfl
  have hact : recorderActive { st with isRecording := false, isProcessing := true } =
      recorderActive st := rfl
  rw [hch, hact]
  cases thrownMessage env (chunksAtUpload env st) with
  | none => simp [teardownEffects]
  | some message => simp [teardownEffects]

/-- C9, as stated, fails: with a suspended audio context the reference is
still held when `stopRecording` returns, and the context is not closed. -/
theorem C9_suspended_context_counterexample :
    (stopRecording { flushed := [], uploadRecording := .ok (), uploadTranscription := .ok () }
        { HookState.initial with
          isRecording := true, mediaRecorder := some .recording
          audioContext := some .suspended, stream := some ⟨[1]⟩
          workletNode := some 1, gainNode := some 2, analyser := some 3 }).audioContext
      = some .suspended
    ∧ Effect.contextClose ∉
      (stopRecording { flushed := [], uploadRecording := .ok (), uploadTranscription := .ok () }
        { HookState.initial with
          isRecording := true, mediaRecorder := some .recording
          audioContext := some .suspended, stream := some ⟨[1]⟩
          workletNode := some 1, gainNode := some 2, analyser := some 3 }).effects := by
  decide

theorem mem_teardownEffects_trackStop (st : HookState) (stream : MediaStream)
    (hs : st.stream = some stream) (t : Nat) (ht : t ∈ stream.tracks) :
    Effect.trackStop t ∈ teardownEffects st := by
  unfold teardownEffects
  simp only [hs, List.mem_append, List.mem_map]
  exact Or.inl (Or.inl (Or.inl (Or.inl (Or.inr ⟨t, ht, rfl⟩))))

theorem mem_teardownEffects_contextClose (st : HookState)
    (hc : st.audioContext = some .running) :
    Effect.contextClose ∈ teardownEffects st := by
  unfold teardownEffects
  simp [hc]

theorem closeCount_append (xs ys : List Effect) :
    closeCount (xs ++ ys) = closeCount xs + closeCount ys := by
  simp [closeCount, List.count_append]

theorem closeCount_eq_zero (xs : List Effect) (h : Effect.contextClose ∉ xs) :
    closeCount xs = 0 :=
  List.count_eq_zero.mpr h

theorem closeCount_teardownEffects (st : HookState) :
    closeCount (teardownEffects st) = if st.audioContext = some .running then 1 else 0 := by
  unfold teardownEffects
  simp only [closeCount_append]
  have h1 : closeCount (match st.animationFrame with
      | some id => if id != 0 then [Effect.cancelAnimationFrame id] else []
      | none => []) = 0 := by
    apply closeCount_eq_zero
    cases st.animationFrame with
    | none => simp
    | some id =>
      by_cases hid : id = 0
      · simp [hid]
      · simp [hid]
  have h2 : closeCount (match st.stream with
      | some stream => stream.tracks.map Effect.trackStop
      | none => []) = 0 := by
    apply closeCount_eq_zero
    cases st.stream with
    | none => simp
    | some stream => simp
  have h3 : closeCount (match st.workletNode with
      | some _ => [Effect.workletDisconnect]
      | none => []) = 0 := by
    apply closeCount_eq_zero
    cases st.workletNode <;> simp
  have h4 : closeCount (match st.gainNode with
      | some _ => [Effect.gainDisconnect]
      | none => []) = 0 := by
    apply closeCount_eq_zero
    cases st.gainNode <;> simp
  have h5 : closeCount (match st.analyser with
      | some _ => [Effect.analyserDisconnect]
      | none => []) = 0 := by
    apply closeCount_eq_zero
    cases st.analyser <;> simp
  rw [h1, h2, h3, h4, h5]
  by_cases hc : st.audioContext = some .running
  · simp [hc, closeCount]
  · simp [hc, closeCount]

theorem closeCount_uploadsIssued (env : StopEnv) (chunks : List Blob)
    (sessionId : Option String) (transcription : String) :
    closeCount (uploadsIssued env chunks sessionId transcription) = 0 := by
  apply closeCount_eq_zero
  unfold uploadsIssued
  split
  · cases env.uploadRecording <;> simp
  · simp

theorem closeCount_stopRecording (env : StopEnv) (st : HookState) :
    closeCount (stopRecording env st).effects =
      closeCount st.effects + (if st.audioContext = some .running then 1 else 0) := by
  rw [stopRecording_eq]
  simp only [closeCount_append, closeCount_teardownEffects, closeCount_uploadsIssued]
  have h1 : closeCount (if recorderActive st = true then [Effect.recorderStop] else []) = 0 := by
    apply closeCount_eq_zero
    split <;> simp
  simp only [h1, Nat.add_zero]

/-- C9, amended: for every hook state and every outcome of the uploads, when
`stopRecording` returns the stream, worklet, gain, analyser and media
recorder references are null, every track of the held stream has been
stopped, the chunk buffer is empty, `audioLevel` is 0 and `isProcessing` and
`isRecording` are false; when the audio context was running its reference is
null and it has been closed, by exactly one `close()` call; when it was not
running its reference is left as it was and no `close()` call is made; and
when an upload throws, `error` is "Failed to save recording: " followed by
the message. -/
theorem C9_stopRecording_teardown (env : StopEnv) (st : HookState) :
    ((stopRecording env st).stream = none
      ∧ (stopRecording env st).workletNode = none
      ∧ (stopRecording env st).gainNode = none
      ∧ (stopRecording env st).analyser = none
      ∧ (stopRecording env st).mediaRecorder = none
      ∧ (stopRecording env st).recordedChunks = []
      ∧ (stopRecording env st).audioLevel = 0
      ∧ (stopRecording env st).isProcessing = false
      ∧ (stopRecording env st).isRecording = false)
    ∧ (∀ stream, st.stream = some stream → ∀ t ∈ stream.tracks,
        Effect.trackStop t ∈ (stopRecording env st).effects)
    ∧ (st.audioContext = some .running →
        (stopRecording env st).audioContext = none
        ∧ Effect.contextClose ∈ (stopRecording env st).effects
        ∧ closeCount (stopRecording env st).effects = closeCount st.effects + 1)
    ∧ (st.audioContext ≠ some .running →
        (stopRecording env st).audioContext = st.audioContext
        ∧ closeCount (stopRecording env st).effects = closeCount st.effects)
    ∧ (∀ message, chunksAtUpload env st ≠ [] → env.uploadRecording = .error message →
        (stopRecording env st).error = "Failed to save recording: " ++ message)
    ∧ (∀ message, chunksAtUpload env st ≠ [] → env.uploadRecording = .ok () →
        env.uploadTranscription = .error message →
        (stopRecording env st).error = "Failed to save recording: " ++ message) := by
  have hclose := closeCount_stopRecording env st
  rw [stopRecording_eq] at hclose ⊢
  refine ⟨⟨rfl, rfl, rfl, rfl, rfl, rfl, rfl, rfl, rfl⟩, ?_, ?_, ?_, ?_, ?_⟩
  · intro stream hs t ht
    simp only [List.mem_append]
    exact Or.inr (mem_teardownEffects_trackStop st stream hs t ht)
  · intro hc
    refine ⟨by simp [hc], ?_, ?_⟩
    · simp only [List.mem_append]
      exact Or.inr (mem_teardownEffects_contextClose st hc)
    · rw [hclose, if_pos hc]
  · intro hc
    refine ⟨by simp [hc], ?_⟩
    rw [hclose, if_neg hc, Nat.add_zero]
  · intro message hne hup
    have hlen : (chunksAtUpload env st).length > 0 := List.length_pos.mpr hne
    simp [thrownMessage, hlen, hup]
  · intro message hne hup htr
    have hlen : (chunksAtUpload env st).length > 0 := List.length_pos.mpr hne
    simp [thrownMessage, hlen, hup, htr]

/-- Witness of the amended C9: a running context, one buffered chunk, and an
audio upload that throws "denied". -/
theorem C9_stopRecording_teardown_witness :
    (stopRecording
        { flushed := [], uploadRecording := .error "denied", uploadTranscription := .ok () }
        { HookState.initial with
          isRecording := true, mediaRecorder := some .recording
          recordedChunks := [⟨[1, 2], "audio/webm"⟩]
          audioContext := some .running, stream := some ⟨[1]⟩ }).error
      = "Failed to save recording: " ++ "denied" :=
  (C9_stopRecording_teardown
      { flushed := [], uploadRecording := .error "denied", uploadTranscription := .ok () }
      { HookState.initial with
        isRecording := true, mediaRecorder := some .recording
        recordedChunks := [⟨[1, 2], "audio/webm"⟩]
        audioContext := some .running, stream := some ⟨[1]⟩ }).2.2.2.2.1
    "denied" (by decide) rfl

theorem uploadsOf_append (xs ys : List Effect) :
    uploadsOf (xs ++ ys) = uploadsOf xs ++ uploadsOf ys := by
  simp [uploadsOf]

theorem uploadsOf_teardownEffects (st : HookState) : uploadsOf (teardownEffects st) = [] := by
  unfold uploadsOf
  rw [List.filter_eq_nil_iff]
  intro e he
  unfold teardownEffects at he
  simp only [List.mem_append] at he
  rcases he with ((((h | h) | h) | h) | h) | h
  · cases hA : st.animationFrame with
    | none => simp [hA] at h
    | some id =>
      by_cases hid : id = 0
      · simp [hA, hid] at h
      · simp [hA, hid] at h
        subst h
        simp [Effect.isUpload]
  · cases hS : st.stream with
    | none => simp [hS] at h
    | some stream =>
      simp only [hS, List.mem_map] at h
      obtain ⟨t, _, rfl⟩ := h
      simp [Effect.isUpload]
  · cases hW : st.workletNode with
    | none => simp [hW] at h
    | some n => simp [hW] at h; subst h; simp [Effect.isUpload]
  · cases hG : st.gainNode with
    | none => simp [hG] at h
    | some n => simp [hG] at h; subst h; simp [Effect.isUpload]
  · cases hN : st.analyser with
    | none => simp [hN] at h
    | some n => simp [hN] at h; subst h; simp [Effect.isUpload]
  · by_cases hc : st.audioContext = some .running
    · simp [hc] at h
      subst h
      simp [Effect.isUpload]
    · simp [hc] at h

theorem uploadsOf_stopRecording (env : StopEnv) (st : HookState) :
    uploadsOf (stopRecording env st).effects =
      uploadsOf st.effects ++
        uploadsIssued env (chunksAtUpload env st) st.sessionId st.transcription := by
  rw [stopRecording_eq]
  simp only [uploadsOf_append, uploadsOf_teardownEffects, List.append_nil]
  have h1 : uploadsOf (if recorderActive st = true then [Effect.recorderStop] else []) = [] := by
    split <;> simp [uploadsOf, Effect.isUpload]
  have h2 : uploadsOf (uploadsIssued env (chunksAtUpload env st) st.sessionId st.transcription) =
      uploadsIssued env (chunksAtUpload env st) st.sessionId st.transcription := by
    unfold uploadsIssued
    split
    · cases env.uploadRecording <;> simp [uploadsOf, Effect.isUpload]
    · simp [uploadsOf]
  rw [h1, h2, List.append_nil]

theorem scenario_transcription (numSpeakers : Nat) (now0 t1 t2 : Int) (shown : String) :
    (reconcile numSpeakers now0 shown
      [(mkEvent true "hel" none none, t1), (mkEvent false "hello" none none, t2)]).transcription
      = "hello" := by
  have h := (reconcile_final_transcription numSpeakers now0 shown
    [(mkEvent true "hel" none none, t1)] (mkEvent false "hello" none none) t2 (by decide))
  simp only [List.singleton_append] at h
  rw [h]
  by_cases hn : numSpeakers > 1
  · simp [finalSegments, Event.isFinal, Event.top, Event.firstResult, Result.firstAlternative,
      mkEvent, truthyBool, Event.label, Event.text, speakerLabel, hn, Alternative.hasItems,
      truthyStr, newTextOf, strOf, jsJoin, String.intercalate, String.intercalate.go]
  · simp [finalSegments, Event.isFinal, Event.top, Event.firstResult, Result.firstAlternative,
      mkEvent, truthyBool, Event.label, Event.text, speakerLabel, hn,
      truthyStr, newTextOf, strOf, jsJoin, String.intercalate, String.intercalate.go]

/-- C10, as stated, fails: a stop whose recorder delivers only empty data
issues no upload at all, and a stop whose audio upload throws issues no
transcript upload. -/
theorem C10_no_upload_counterexample :
    uploadsOf (stopRecording
        { flushed := [⟨[], "audio/webm"⟩], uploadRecording := .ok (), uploadTranscription := .ok () }
        { HookState.initial with
          isRecording := true, mediaRecorder := some .recording
          sessionId := some "s1", transcription := "hello" }).effects = []
    ∧ uploadsOf (stopRecording
        { flushed := [⟨[7], "audio/webm"⟩], uploadRecording := .error "denied"
          uploadTranscription := .ok () }
        { HookState.initial with
          isRecording := true, mediaRecorder := some .recording
          sessionId := some "s1", transcription := "hello" }).effects
      = [Effect.uploadRecording ⟨[7], "audio/wav"⟩ (some "s1")] := by
  decide

/-- C10, amended: when the chunk buffer read by `stopRecording` is non-empty,
exactly one upload of the recorded audio is issued, a single blob of type
"audio/wav" holding the bytes of all buffered chunks in capture order, under
the hook's session id; when that upload succeeds exactly one upload of the
displayed transcription follows under the same session id, and when it throws
none follows; when the buffer is empty no upload is issued. In the scenario
partial "hel", final "hello", stop, with a non-empty buffer and a successful
audio upload, the uploaded transcript text is "hello". -/
theorem C10_stopRecording_uploads (env : StopEnv) (st : HookState) (numSpeakers : Nat)
    (now0 t1 t2 : Int) (shown : String) :
    (chunksAtUpload env st ≠ [] → env.uploadRecording = .ok () →
      uploadsOf (stopRecording env st).effects =
        uploadsOf st.effects ++
          [Effect.uploadRecording (Blob.ofParts (chunksAtUpload env st) "audio/wav") st.sessionId,
           Effect.uploadTranscription st.transcription st.sessionId])
    ∧ (∀ message, chunksAtUpload env st ≠ [] → env.uploadRecording = .error message →
      uploadsOf (stopRecording env st).effects =
        uploadsOf st.effects ++
          [Effect.uploadRecording (Blob.ofParts (chunksAtUpload env st) "audio/wav")
            st.sessionId])
    ∧ (chunksAtUpload env st = [] →
      uploadsOf (stopRecording env st).effects = uploadsOf st.effects)
    ∧ (Blob.ofParts (chunksAtUpload env st) "audio/wav").bytes =
        ((chunksAtUpload env st).map Blob.bytes).flatten
    ∧ (st.transcription = (reconcile numSpeakers now0 shown
          [(mkEvent true "hel" none none, t1),
           (mkEvent false "hello" none none, t2)]).transcription →
      chunksAtUpload env st ≠ [] → env.uploadRecording = .ok () →
      uploadsOf (stopRecording env st).effects =
        uploadsOf st.effects ++
          [Effect.uploadRecording (Blob.ofParts (chunksAtUpload env st) "audio/wav") st.sessionId,
           Effect.uploadTranscription "hello" st.sessionId]) := by
  have hok : chunksAtUpload env st ≠ [] → env.uploadRecording = .ok () →
      uploadsOf (stopRecording env st).effects =
        uploadsOf st.effects ++
          [Effect.uploadRecording (Blob.ofParts (chunksAtUpload env st) "audio/wav") st.sessionId,
           Effect.uploadTranscription st.transcription st.sessionId] := by
    intro hne hup
    have hlen : (chunksAtUpload env st).length > 0 := List.length_pos.mpr hne
    rw [uploadsOf_stopRecording]
    simp [uploadsIssued, hlen, hup]
  refine ⟨hok, ?_, ?_, rfl, ?_⟩
  · intro message hne hup
    have hlen : (chunksAtUpload env st).length > 0 := List.length_pos.mpr hne
    rw [uploadsOf_stopRecording]
    simp [uploadsIssued, hlen, hup]
  · intro hempty
    rw [uploadsOf_stopRecording]
    simp [uploadsIssued, hempty]
  · intro htr hne hup
    rw [hok hne hup, htr, scenario_transcription]

/-- Witness of the amended C10: the recorder delivers an empty and a non-empty
chunk on stop, after one buffered chunk; both uploads succeed. -/
theorem C10_stopRecording_uploads_witness :
    uploadsOf (stopRecording
        { flushed := [⟨[], "audio/webm"⟩, ⟨[3], "audio/webm"⟩], uploadRecording := .ok ()
          uploadTranscription := .ok () }
        { HookState.initial with
          isRecording := true, mediaRecorder := some .recording
          recordedChunks := [⟨[1, 2], "audio/webm"⟩]
          sessionId := some "s1", transcription := "hello" }).effects
      = [] ++ [Effect.uploadRecording ⟨[1, 2, 3], "audio/wav"⟩ (some "s1"),
          Effect.uploadTranscription "hello" (some "s1")] :=
  ((C10_stopRecording_uploads
      { flushed := [⟨[], "audio/webm"⟩, ⟨[3], "audio/webm"⟩], uploadRecording := .ok ()
        uploadTranscription := .ok () }
      { HookState.initial with
        isRecording := true, mediaRecorder := some .recording
        recordedChunks := [⟨[1, 2], "audio/webm"⟩]
        sessionId := some "s1", transcription := "hello" }
      1 0 150 900 "").1 (by decide) rfl).trans (by decide)

/-! ## `startRecording` -/

theorem initializeAudioContext_ok (env : StartEnv) (st : HookState)
    (hinit : st.audioContext ≠ none ∨ env.init = .ok) :
    (initializeAudioContext env st).1 = true
    ∧ (initializeAudioContext env st).2.audioContext ≠ none
    ∧ (initializeAudioContext env st).2.error = st.error
    ∧ (initializeAudioContext env st).2.effects = st.effects
    ∧ (initializeAudioContext env st).2.isRecording = st.isRecording := by
  unfold initializeAudioContext
  cases hctx : st.audioContext with
  | some c => simp [hctx]
  | none =>
    rcases hinit with h | h
    · exact absurd hctx h
    · simp [h]

theorem startTranscription_frame (env : StartEnv) (st : HookState) :
    (startTranscription env st).1.error = st.error
    ∧ (startTranscription env st).1.isRecording = st.isRecording
    ∧ (startTranscription env st).1.isProcessing = st.isProcessing
    ∧ (startTranscription env st).1.stream = st.stream
    ∧ (startTranscription env st).1.mediaRecorder = st.mediaRecorder := by
  unfold startTranscription
  cases st.audioContext with
  | none => exact ⟨rfl, rfl, rfl, rfl, rfl⟩
  | some c =>
    cases env.setup with
    | error m => exact ⟨rfl, rfl, rfl, rfl, rfl⟩
    | ok u =>
      cases env.send with
      | error m => exact ⟨rfl, rfl, rfl, rfl, rfl⟩
      | ok v => exact ⟨rfl, rfl, rfl, rfl, rfl⟩

theorem startTranscription_transport (env : StartEnv) (st : HookState) (message : String)
    (hctx : st.audioContext ≠ none) (hsetup : env.setup = .ok ())
    (hfail : env.send = .error message ∨ (env.send = .ok () ∧ env.streamError = some message)) :
    (startTranscription env st).2 = some message
    ∧ (startTranscription env st).1.effects = st.effects ++ [Effect.transcribeSend] := by
  unfold startTranscription
  cases hc : st.audioContext with
  | none => exact absurd hc hctx
  | some c =>
    rcases hfail with h | ⟨h1, h2⟩
    · simp [hsetup, h, HookState.log]
    · simp [hsetup, h1, h2, HookState.log]

theorem startRecording_mic_ok (env : StartEnv) (st : HookState) (stream : MediaStream)
    (hinit : st.audioContext ≠ none ∨ env.init = .ok) (hmic : env.getUserMedia = .ok stream) :
    startRecording env st =
      { (startTranscription env (recordingState env st stream)).1 with isProcessing := false } := by
  have hflag :=
    (initializeAudioContext_ok env { st with error := "", isProcessing := true } hinit).1
  unfold startRecording recordingState
  simp only [hflag, Bool.not_true, Bool.false_eq_true, if_false, hmic]

theorem recordingState_facts (env : StartEnv) (st : HookState) (stream : MediaStream)
    (hinit : st.audioContext ≠ none ∨ env.init = .ok) :
    (recordingState env st stream).audioContext ≠ none
    ∧ (recordingState env st stream).error = ""
    ∧ (recordingState env st stream).isRecording = true
    ∧ (recordingState env st stream).stream = some stream
    ∧ (recordingState env st stream).mediaRecorder = some .recording
    ∧ (recordingState env st stream).effects =
        st.effects ++ [Effect.createSessionId, Effect.getUserMedia, Effect.recorderStart] := by
  obtain ⟨_, hctx, herr, heff, _⟩ :=
    initializeAudioContext_ok env { st with error := "", isProcessing := true } hinit
  refine ⟨hctx, herr, rfl, rfl, rfl, ?_⟩
  simp [recordingState, HookState.log, heff]

theorem startRecording_after_init (env : StartEnv) (st : HookState)
    (hinit : st.audioContext ≠ none ∨ env.init = .ok) :
    (startRecording env st).error = "" ∧ (startRecording env st).isProcessing = false := by
  cases hmic : env.getUserMedia with
  | error m =>
    obtain ⟨hflag, _, herr, _, _⟩ :=
      initializeAudioContext_ok env { st with error := "", isProcessing := true } hinit
    unfold startRecording
    simp only [hflag, Bool.not_true, Bool.false_eq_true, if_false, HookState.log, hmic]
    exact ⟨herr, trivial⟩
  | ok stream =>
    rw [startRecording_mic_ok env st stream hinit hmic]
    refine ⟨?_, rfl⟩
    show (startTranscription env (recordingState env st stream)).1.error = ""
    rw [(startTranscription_frame env _).1]
    exact (recordingState_facts env st stream hinit).2.1

theorem append_ne_empty_left (a b : String) (ha : a ≠ "") : a ++ b ≠ "" := by
  intro h
  apply ha
  have hlen : (a ++ b).length = 0 := by rw [h]; rfl
  rw [String.length_append] at hlen
  have ha0 : a.length = 0 := by omega
  cases a with
  | mk data =>
    have hd : data = [] := List.length_eq_zero.mp ha0
    subst hd
    rfl

/-- C11, as stated, fails: when microphone acquisition throws, and when the
transcription session throws on `send`, `startRecording` returns with an
empty error state. -/
theorem C11_silent_failure_counterexample :
    (startRecording { StartEnv.quiet with getUserMedia := .error "Permission denied" }
        HookState.initial).error = ""
    ∧ (startRecording { StartEnv.quiet with send := .error "socket closed" }
        HookState.initial).error = ""
    ∧ (startTranscription { StartEnv.quiet with send := .error "socket closed" }
        { HookState.initial with audioContext := some .running }).2 = some "socket closed" := by
  decide

/-- C11, amended: when audio-context initialisation fails, `startRecording`
returns with `error` equal to "Failed to initialize audio: " followed by the
failure message, which is non-empty, with nothing else started; when
initialisation succeeds and microphone acquisition or the transcription
session throws, the failure is only logged to the console and `startRecording`
returns with an empty `error`; `isProcessing` is false in every case. -/
theorem C11_start_failure_error (env : StartEnv) (st : HookState) :
    (∀ message, st.audioContext = none →
        (env.init = .contextThrows message ∨ env.init = .addModuleThrows message) →
        (startRecording env st).error = "Failed to initialize audio: " ++ message
        ∧ (startRecording env st).error ≠ ""
        ∧ (startRecording env st).isProcessing = false
        ∧ (startRecording env st).effects = st.effects)
    ∧ (∀ message, (st.audioContext ≠ none ∨ env.init = .ok) →
        env.getUserMedia = .error message →
        (startRecording env st).error = "" ∧ (startRecording env st).isProcessing = false)
    ∧ (∀ stream message, (st.audioContext ≠ none ∨ env.init = .ok) →
        env.getUserMedia = .ok stream →
        (env.setup = .error message ∨ env.send = .error message
          ∨ env.streamError = some message) →
        (startRecording env st).error = "" ∧ (startRecording env st).isProcessing = false) := by
  refine ⟨?_, ?_, ?_⟩
  · intro message hctx hfail
    have hne : "Failed to initialize audio: " ++ message ≠ "" :=
      append_ne_empty_left _ _ (by decide)
    rcases hfail with h | h
    · have heq : startRecording env st =
          { st with error := "Failed to initialize audio: " ++ message, isProcessing := false } := by
        simp [startRecording, initializeAudioContext, hctx, h]
      rw [heq]
      exact ⟨rfl, hne, rfl, rfl⟩
    · have heq : startRecording env st =
          { st with
            error := "Failed to initialize audio: " ++ message, isProcessing := false
            gainNode := some env.gainNode, analyser := some env.analyser } := by
        simp [startRecording, initializeAudioContext, hctx, h]
      rw [heq]
      exact ⟨rfl, hne, rfl, rfl⟩
  · intro message hinit _
    exact startRecording_after_init env st hinit
  · intro stream message hinit _ _
    exact startRecording_after_init env st hinit

/-- Witness of the amended C11: loading the worklet module fails with "404". -/
theorem C11_start_failure_error_witness :
    (startRecording { StartEnv.quiet with init := .addModuleThrows "404" }
        HookState.initial).error = "Failed to initialize audio: " ++ "404" :=
  ((C11_start_failure_error { StartEnv.quiet with init := .addModuleThrows "404" }
      HookState.initial).1 "404" rfl (Or.inr rfl)).1

/-- C12, as stated, fails: when `transcribeClient.send` throws, and when the
inbound stream throws after a final event, `startRecording` returns with
`isRecording` still true, the stream held and the recorder recording. -/
theorem C12_still_recording_counterexample :
    (startRecording { StartEnv.quiet with send := .error "socket closed" }
        HookState.initial).isRecording = true
    ∧ (startRecording
        { StartEnv.quiet with
          events := [(mkEvent false "hello" none none, 5)], streamError := some "reset" }
        HookState.initial) =
      { HookState.initial with
        isRecording := true, transcription := "hello", sessionId := some "s1"
        mediaRecorder := some .recording, audioContext := some .running
        workletNode := some 3, stream := some ⟨[1]⟩, gainNode := some 1, analyser := some 2
        effects := [.createSessionId, .getUserMedia, .recorderStart, .transcribeSend] } := by
  decide

/-- C12, amended: when the transcription transport fails after recording has
begun (`transcribeClient.send` throws, or the inbound stream throws), the
session has thrown that error, and `startRecording` returns with `isRecording`
still true, the stream held and the recorder recording (the recording goes on
until `stopRecording`), with `isProcessing` false and an empty `error`; exactly
one `send` was made in the call, so the session is not retried. -/
theorem C12_transport_failure (env : StartEnv) (st : HookState) (stream : MediaStream)
    (message : String) (hinit : st.audioContext ≠ none ∨ env.init = .ok)
    (hmic : env.getUserMedia = .ok stream) (hsetup : env.setup = .ok ())
    (hfail : env.send = .error message ∨ (env.send = .ok () ∧ env.streamError = some message)) :
    (∀ st1 : HookState, st1.audioContext ≠ none → (startTranscription env st1).2 = some message)
    ∧ (startRecording env st).isRecording = true
    ∧ (startRecording env st).isProcessing = false
    ∧ (startRecording env st).error = ""
    ∧ (startRecording env st).stream = some stream
    ∧ (startRecording env st).mediaRecorder = some .recording
    ∧ (startRecording env st).effects =
        st.effects ++ [Effect.createSessionId, Effect.getUserMedia, Effect.recorderStart,
          Effect.transcribeSend]
    ∧ sendCount (startRecording env st).effects = sendCount st.effects + 1 := by
  obtain ⟨hctx, _, hrec, hstream, hmr, heff⟩ := recordingState_facts env st stream hinit
  obtain ⟨herr, hproc⟩ := startRecording_after_init env st hinit
  obtain ⟨_, hfrec, _, hfstream, hfmr⟩ :=
    startTranscription_frame env (recordingState env st stream)
  have hsend := (startTranscription_transport env (recordingState env st stream) message
    hctx hsetup hfail).2
  have heffects : (startRecording env st).effects =
      st.effects ++ [Effect.createSessionId, Effect.getUserMedia, Effect.recorderStart,
        Effect.transcribeSend] := by
    rw [startRecording_mic_ok env st stream hinit hmic]
    show (startTranscription env (recordingState env st stream)).1.effects = _
    rw [hsend, heff]
    simp
  refine ⟨fun st1 h1 => (startTranscription_transport env st1 message h1 hsetup hfail).1,
    ?_, hproc, herr, ?_, ?_, heffects, ?_⟩
  · rw [startRecording_mic_ok env st stream hinit hmic]
    show (startTranscription env (recordingState env st stream)).1.isRecording = true
    rw [hfrec, hrec]
  · rw [startRecording_mic_ok env st stream hinit hmic]
    show (startTranscription env (recordingState env st stream)).1.stream = some stream
    rw [hfstream, hstream]
  · rw [startRecording_mic_ok env st stream hinit hmic]
    show (startTranscription env (recordingState env st stream)).1.mediaRecorder = _
    rw [hfmr, hmr]
  · rw [heffects]
    simp [sendCount, List.count_append]

/-- Witness of the amended C12: the inbound stream throws "reset" after
sending succeeded, on a fresh hook. -/
theorem C12_transport_failure_witness :
    (startRecording { StartEnv.quiet with streamError := some "reset" }
        HookState.initial).isRecording = true :=
  (C12_transport_failure { StartEnv.quiet with streamError := some "reset" }
    HookState.initial ⟨[1]⟩ "reset" (Or.inr rfl) rfl rfl (Or.inr ⟨rfl, rfl⟩)).2.1

end UseApp
